import Mathlib

/-!
Shallow embedding of the creatures simulation worker
(src/workers/sim.worker.ts): the Kuramoto oscillator bank, the
energy/social economy, the conversation scheduler and the harmonic
learner, together with proofs checking the specification's claims
against this embedding.  JavaScript floating-point numbers are
modelled as real numbers; Math.random() is modelled as an explicit
oracle stream of reals.
-/

namespace Creatures

open scoped Classical

/-- Oracle for Math.random(): a stream of values and a cursor. -/
structure Rng where
  vals : Nat → ℝ
  idx : Nat

/-- Drawing one random value returns it and advances the cursor. -/
def Rng.next (r : Rng) : ℝ × Rng := (r.vals r.idx, ⟨r.vals, r.idx + 1⟩)

/-- One remembered note (interface RecentNote). -/
structure RecentNote where
  degree : ℤ
  time : ℝ
  agentId : Nat

/-- Per-agent state (interface KuramotoAgent). -/
structure KuramotoAgent where
  id : Nat
  beatPhase : ℝ
  phrasePhase : ℝ
  beatOmega : ℝ
  phraseOmega : ℝ
  size : ℝ
  energy : ℝ
  lastBeatPhase : ℝ
  speakingEnergy : ℝ
  maxSpeakingEnergy : ℝ
  speakingCost : ℝ
  rechargeRate : ℝ
  territoryPhase : ℝ
  forageEfficiency : ℝ
  lastForageTime : ℝ
  isForaging : Bool
  socialStatus : ℝ
  statusDecayRate : ℝ
  lastSocialTime : ℝ
  recentNotes : List RecentNote
  degreeWeights : List ℝ

/-- Default agent used as the out-of-range fallback of list indexing. -/
def defaultAgent : KuramotoAgent :=
  { id := 0, beatPhase := 0, phrasePhase := 0, beatOmega := 0, phraseOmega := 0,
    size := 0, energy := 0, lastBeatPhase := 0, speakingEnergy := 0,
    maxSpeakingEnergy := 0, speakingCost := 0, rechargeRate := 0,
    territoryPhase := 0, forageEfficiency := 0, lastForageTime := 0,
    isForaging := false, socialStatus := 0, statusDecayRate := 0,
    lastSocialTime := 0, recentNotes := [], degreeWeights := [] }

/-- An emitted note (interface NoteEvent). -/
structure NoteEvent where
  startTime : ℝ
  freq : ℝ
  dur : ℝ
  amp : ℝ
  timbre : ℝ

/-- One entry of the shared conversation history. -/
structure ConvEntry where
  time : ℝ
  agentId : Nat

/-- Mutable state of the PitchField class. -/
structure PitchFieldState where
  currentLightLevel : ℝ
  conversationHistory : List ConvEntry
  lastConversationEnd : ℝ
  conversationCooldown : ℝ

/-- PitchField.tonic (220 Hz). -/
noncomputable def tonic : ℝ := 220

/-- PitchField.baseOctave. -/
noncomputable def baseOctave : ℝ := 4

/-- PitchField.lookAhead (100 ms scheduling slack). -/
noncomputable def lookAhead : ℝ := 0.1

/-- PitchField.responseWindows. -/
noncomputable def responseWindows : List ℝ := [2.0, 1.5, 1.0, 0.8]

/-- KuramotoSimulator.dt (50 ms tick). -/
noncomputable def simDt : ℝ := 0.05

/-- JavaScript truncation toward zero, as used by the % operator. -/
noncomputable def jsTrunc (z : ℝ) : ℤ := if 0 ≤ z then ⌊z⌋ else ⌈z⌉

/-- JavaScript remainder x % y (sign follows the dividend). -/
noncomputable def jsMod (x y : ℝ) : ℝ := x - y * (jsTrunc (x / y) : ℝ)

/-- Phase wrapping as written in updatePhases: remainder by 2*pi, then
add 2*pi if the result is negative. -/
noncomputable def wrapPhase (x : ℝ) : ℝ :=
  if jsMod x (2 * Real.pi) < 0 then jsMod x (2 * Real.pi) + 2 * Real.pi
  else jsMod x (2 * Real.pi)

/-- PitchField.crossedPhase: did the phase cross the given threshold,
accounting for wrap-around. -/
noncomputable def crossedPhase (lastPhase currentPhase threshold : ℝ) : Bool :=
  if lastPhase > currentPhase then
    if lastPhase > threshold ∨ currentPhase ≤ threshold then true else false
  else
    if lastPhase ≤ threshold ∧ currentPhase > threshold then true else false

/-- PitchField.didCrossBeat: the two major beat positions checked. -/
noncomputable def didCrossBeat (lastPhase currentPhase : ℝ) : Bool :=
  [(0 : ℝ), Real.pi].any (fun beatPos => crossedPhase lastPhase currentPhase beatPos)

/-- PitchField.cleanupOldConversation: drop entries older than 10 s and,
when the newest remaining entry is more than 3 s old, record it as the
end of the conversation. -/
noncomputable def cleanupOldConversation (pf : PitchFieldState) (currentTime : ℝ) :
    PitchFieldState :=
  let hist := pf.conversationHistory.filter (fun e => currentTime - e.time ≤ 10)
  let lastEnd :=
    match hist.getLast? with
    | some lastEntry =>
        if currentTime - lastEntry.time > 3 then lastEntry.time else pf.lastConversationEnd
    | none => pf.lastConversationEnd
  { pf with conversationHistory := hist, lastConversationEnd := lastEnd }

/-- Result of PitchField.getConversationState. -/
structure ConversationState where
  isInCooldown : Bool
  conversationPosition : Nat
  timeSinceLastSpeaker : Option ℝ

/-- PitchField.getConversationState: cooldown flag, position in the
current conversation (entries within the last 8 s) and the time since
the last speaker (none stands for Infinity). -/
noncomputable def getConversationState (pf : PitchFieldState) (currentTime : ℝ) :
    ConversationState :=
  let isInCooldown :=
    if currentTime - pf.lastConversationEnd < pf.conversationCooldown then true else false
  let recentHistory := pf.conversationHistory.filter (fun e => currentTime - e.time ≤ 8)
  let timeSinceLastSpeaker :=
    match recentHistory.getLast? with
    | some lastEntry => some (currentTime - lastEntry.time)
    | none => none
  { isInCooldown := isInCooldown,
    conversationPosition := recentHistory.length,
    timeSinceLastSpeaker := timeSinceLastSpeaker }

/-- PitchField.shouldEmitNote: the probabilistic emission decision.
Reads only the agent's id and its energy trait, the agent count, the
conversation state and one random draw (when a probabilistic branch is
reached). -/
noncomputable def shouldEmitNote (pf : PitchFieldState) (agentId : Nat)
    (agentEnergy : ℝ) (numAgents : Nat) (currentTime : ℝ) (rng : Rng) : Bool × Rng :=
  let cs := getConversationState pf currentTime
  if cs.isInCooldown = true then (false, rng)
  else if cs.conversationPosition = 0 then
    let d := rng.next
    (if d.1 < agentEnergy * 0.02 then true else false, d.2)
  else if cs.conversationPosition < responseWindows.length then
    let windowTime := responseWindows.getD (cs.conversationPosition - 1) 0
    match cs.timeSinceLastSpeaker with
    | some tsls =>
        if tsls ≤ windowTime then
          let recentHistory := pf.conversationHistory.filter (fun e => currentTime - e.time ≤ 8)
          let probability :=
            match recentHistory.getLast? with
            | some lastSpeaker =>
                let leftNeighbor := (lastSpeaker.agentId + numAgents - 1) % numAgents
                let rightNeighbor := (lastSpeaker.agentId + 1) % numAgents
                if agentId = leftNeighbor ∨ agentId = rightNeighbor then
                  agentEnergy * 0.15 * 2.5
                else agentEnergy * 0.15
            | none => agentEnergy * 0.15
          let d := rng.next
          (if d.1 < min probability 0.6 then true else false, d.2)
        else (false, rng)
    | none => (false, rng)
  else (false, rng)

/-- PitchField.getChromaticScale: all twelve semitones. -/
def getChromaticScale : List ℤ := [0, 1, 2, 3, 4, 5, 6, 7, 8, 9, 10, 11]

/-- PitchField.getCurrentTonicShift: no shift by day, three semitones by
night. -/
noncomputable def getCurrentTonicShift (pf : PitchFieldState) : ℤ :=
  if pf.currentLightLevel > 0.5 then 0 else 3

/-- PitchField.getOctaveFromSize: octave band from agent size with a
small random walk. -/
noncomputable def getOctaveFromSize (size : ℝ) (rng : Rng) : ℝ × Rng :=
  let d := rng.next
  let randomWalk := (d.1 - 0.5) * 0.2
  (if size < 0.33 then 5.5 + randomWalk
   else if size < 0.67 then 4.5 + randomWalk
   else 3.5 + randomWalk, d.2)

/-- The cumulative-probability selection loop of
selectDegreeWithLearning: the first index whose running total reaches
the drawn value. -/
noncomputable def cumulativePick (r : ℝ) : ℝ → Nat → List ℝ → Option Nat
  | _, _, [] => none
  | cum, i, w :: rest =>
      if r ≤ cum + w then some i else cumulativePick r (cum + w) (i + 1) rest

/-- PitchField.selectDegreeWithLearning: 1 percent innovation, learned
weights biased toward stepwise motion, then weighted sampling with a
uniform fallback. -/
noncomputable def selectDegreeWithLearning (a : KuramotoAgent) (currentScale : List ℤ)
    (rng : Rng) : Nat × Rng :=
  let dInnov := rng.next
  if dInnov.1 < 0.01 then
    let dPick := dInnov.2.next
    ((⌊dPick.1 * (currentScale.length : ℝ)⌋).toNat, dPick.2)
  else
    let weights :=
      match a.recentNotes.getLast? with
      | some lastNote =>
          match currentScale.findIdx? (fun s => s = lastNote.degree) with
          | some lastDegreeIndex =>
              (List.range currentScale.length).map (fun i =>
                let w := a.degreeWeights.getD i 0
                let distance := ((i : ℤ) - (lastDegreeIndex : ℤ)).natAbs
                if distance = 1 ∨ distance = 2 then w * 1.7
                else if distance > 2 then w * 0.3
                else w)
          | none => (List.range currentScale.length).map (fun i => a.degreeWeights.getD i 0)
      | none => (List.range currentScale.length).map (fun i => a.degreeWeights.getD i 0)
    let totalWeight := weights.sum
    let normalizedWeights := weights.map (fun w => w / totalWeight)
    let dSel := dInnov.2.next
    match cumulativePick dSel.1 0 0 normalizedWeights with
    | some i => (i, dSel.2)
    | none =>
        let dFall := dSel.2.next
        ((⌊dFall.1 * (currentScale.length : ℝ)⌋).toNat, dFall.2)

/-- In-place update of one list entry (array element assignment). -/
noncomputable def listModify (l : List ℝ) (i : Nat) (f : ℝ → ℝ) : List ℝ :=
  l.set i (f (l.getD i 0))

/-- The weight normalization at the end of updateAgentLearning: rescale
so the twelve weights would sum to 12, clamping each entry at 0.1 from
below; skipped when the pre-normalization total is not positive. -/
noncomputable def renormalizeWeights (w : List ℝ) : List ℝ :=
  if w.sum > 0 then w.map (fun x => max 0.1 (x / w.sum * 12)) else w

/-- PitchField.updateAgentLearning: push the new note into recentNotes
(capacity 3), reinforce or penalize the played degree against neighbor
notes within 300 ms, then renormalize the weights; one random draw is
consumed by the logging branch. -/
noncomputable def updateAgentLearning (a : KuramotoAgent) (noteRecord : RecentNote)
    (allAgents : List KuramotoAgent) (currentTime : ℝ) (rng : Rng) :
    KuramotoAgent × Rng :=
  let pushed := a.recentNotes ++ [noteRecord]
  let newRecent := if pushed.length > 3 then pushed.tail else pushed
  let neighborNotes :=
    (allAgents.filter (fun other => other.id ≠ a.id)).flatMap
      (fun other => other.recentNotes.filter (fun note => |note.time - currentTime| ≤ 0.3))
  let weights :=
    match getChromaticScale.findIdx? (fun s => s = noteRecord.degree) with
    | some currentDegreeIndex =>
        if neighborNotes.length > 0 then
          neighborNotes.foldl (fun ws neighborNote =>
            let interval := (noteRecord.degree - neighborNote.degree).natAbs % 12
            let ws1 :=
              if interval ∈ ([3, 4, 5, 7, 9, 0] : List Nat) then
                listModify ws currentDegreeIndex (fun x => x + 0.02)
              else ws
            if interval = 1 ∧ neighborNotes.length ≥ 2 then
              listModify ws1 currentDegreeIndex (fun x => x - 0.01)
            else ws1) a.degreeWeights
        else a.degreeWeights
    | none => a.degreeWeights
  ({ a with recentNotes := newRecent, degreeWeights := renormalizeWeights weights },
   rng.next.2)

/-- PitchField.createNoteFromAgent: degree selection, day/night tonic
shift, octave from size, microtonal jitter, duration/amplitude/timbre
synthesis, and the learning update. -/
noncomputable def createNoteFromAgent (pf : PitchFieldState) (a : KuramotoAgent)
    (currentAudioTime : ℝ) (allAgents : List KuramotoAgent) (rng : Rng) :
    NoteEvent × KuramotoAgent × Rng :=
  let sel := selectDegreeWithLearning a getChromaticScale rng
  let degree := getChromaticScale.getD sel.1 0
  let adjustedDegree := (degree + getCurrentTonicShift pf) % 12
  let oct := getOctaveFromSize a.size sel.2
  let baseFrequency :=
    tonic * (2 : ℝ) ^ (oct.1 - baseOctave) * (2 : ℝ) ^ ((adjustedDegree : ℝ) / 12)
  let dMicro := oct.2.next
  let microtonalVariation := (dMicro.1 - 0.5) * (2 / 96)
  let frequency := baseFrequency * (2 : ℝ) ^ microtonalVariation
  let dDur := dMicro.2.next
  let duration := 1.5 + dDur.1 * 4.5
  let amplitude := a.energy * 0.06
  let noteRecord : RecentNote := { degree := degree, time := currentAudioTime, agentId := a.id }
  let learned := updateAgentLearning a noteRecord allAgents currentAudioTime dDur.2
  let dTimbre := learned.2.next
  let timbre := 0.1 + dTimbre.1 * 0.3
  ({ startTime := currentAudioTime + lookAhead, freq := frequency, dur := duration,
     amp := amplitude, timbre := timbre }, learned.1, dTimbre.2)

/-- Social status of the first agent in the list with the given id
(zero when absent), as read by the listener-trickle computation. -/
noncomputable def statusOfFirst (agents : List KuramotoAgent) (agentId : Nat) : ℝ :=
  match agents.find? (fun a => a.id = agentId) with
  | some s => s.socialStatus
  | none => 0

/-- Mutation through Array.prototype.find: update the first agent in
the list carrying the given id. -/
noncomputable def updateFirstById : List KuramotoAgent → Nat →
    (KuramotoAgent → KuramotoAgent) → List KuramotoAgent
  | [], _, _ => []
  | a :: rest, agentId, f =>
      if a.id = agentId then f a :: rest else a :: updateFirstById rest agentId f

/-- The nearby-agent filter of applySocialBenefitsFromSpeaking: other
agents within 60 degrees of beat-phase distance of the speaker. -/
noncomputable def nearbyAgentsOf (agents : List KuramotoAgent) (speaker : KuramotoAgent) :
    List KuramotoAgent :=
  agents.filter (fun other =>
    other.id ≠ speaker.id ∧
      min |speaker.beatPhase - other.beatPhase| (2 * Real.pi - |speaker.beatPhase - other.beatPhase|) <
        Real.pi / 3)

/-- KuramotoSimulator.applySocialBenefitsFromSpeaking together with
checkForValidationRewards and applySocialBenefitsToListeners: social
feeding for the speaker, a validation bonus sized by the responder's
status, a listener trickle for nearby non-foraging agents, and the
speaker's social timestamp. -/
noncomputable def applySocialBenefitsFromSpeaking (agents : List KuramotoAgent)
    (speakerId : Nat) (conversationHistory : List ConvEntry) (currentTime : ℝ) :
    List KuramotoAgent :=
  match agents.find? (fun a => a.id = speakerId) with
  | none => agents
  | some speaker =>
      let nearbyAgents := nearbyAgentsOf agents speaker
      let nearbyIds := nearbyAgents.map (fun a => a.id)
      let agents1 : List KuramotoAgent :=
        if nearbyAgents.length > 0 then
          let socialFeedingBonus := min 0.1 ((nearbyAgents.length : ℝ) * 0.02)
          updateFirstById agents speakerId (fun s =>
            { s with
              speakingEnergy := min s.maxSpeakingEnergy (s.speakingEnergy + socialFeedingBonus) })
        else agents
      let recentResponses := conversationHistory.filter (fun e =>
        e.agentId ≠ speakerId ∧ currentTime - e.time ≤ 3 ∧ 0.1 ≤ currentTime - e.time)
      let agents2 : List KuramotoAgent :=
        match recentResponses.getLast? with
        | none => agents1
        | some mostRecentResponse =>
            match agents1.find? (fun a => a.id = mostRecentResponse.agentId) with
            | none => agents1
            | some responder =>
                let validationBonus := 0.08 * responder.socialStatus
                updateFirstById agents1 speakerId (fun s =>
                  { s with
                    speakingEnergy := min s.maxSpeakingEnergy (s.speakingEnergy + validationBonus),
                    socialStatus := min 1 (s.socialStatus + validationBonus * 0.5) })
      let listenerBonus : ℝ := 0.02 * statusOfFirst agents2 speakerId
      let agents3 : List KuramotoAgent := agents2.map (fun listener =>
        if listener.id ∈ nearbyIds ∧ listener.isForaging = false then
          { listener with
            speakingEnergy := min listener.maxSpeakingEnergy (listener.speakingEnergy + listenerBonus),
            lastSocialTime := currentTime }
        else listener)
      updateFirstById agents3 speakerId (fun s => { s with lastSocialTime := currentTime })

/-- Map.set on the currently-playing note information (keyed by agent
id, value startTime and duration). -/
noncomputable def setNoteInfo : List (Nat × ℝ × ℝ) → Nat → ℝ → ℝ → List (Nat × ℝ × ℝ)
  | [], agentId, s, d => [(agentId, s, d)]
  | e :: rest, agentId, s, d =>
      if e.1 = agentId then (agentId, s, d) :: rest else e :: setNoteInfo rest agentId s d

/-- Set.add on the currently-playing agent ids. -/
noncomputable def addPlaying (playing : List Nat) (agentId : Nat) : List Nat :=
  if agentId ∈ playing then playing else playing ++ [agentId]

/-- The state threaded through the generateNotes loop. -/
structure GenResult where
  pf : PitchFieldState
  agents : List KuramotoAgent
  notes : List NoteEvent
  playing : List Nat
  noteInfo : List (Nat × ℝ × ℝ)
  rng : Rng

/-- One iteration of the generateNotes loop over agent index k: beat
crossing test, emission decision, note creation, history append and the
onSpeaking callback of KuramotoSimulator.update (playing set, note info
map, social benefits). -/
noncomputable def generateNotesStep (currentTime : ℝ) (g : GenResult) (k : Nat) : GenResult :=
  let a := g.agents.getD k defaultAgent
  if didCrossBeat a.lastBeatPhase a.beatPhase = true then
    let em := shouldEmitNote g.pf a.id a.energy g.agents.length currentTime g.rng
    if em.1 = true then
      let created := createNoteFromAgent g.pf a currentTime g.agents em.2
      let note := created.1
      let agents1 := g.agents.set k created.2.1
      let pf1 := { g.pf with
        conversationHistory := g.pf.conversationHistory ++ [{ time := currentTime, agentId := a.id }] }
      let playing1 := addPlaying g.playing a.id
      let noteInfo1 := setNoteInfo g.noteInfo a.id note.startTime note.dur
      let agents2 := applySocialBenefitsFromSpeaking agents1 a.id pf1.conversationHistory currentTime
      { pf := pf1, agents := agents2, notes := g.notes ++ [note],
        playing := playing1, noteInfo := noteInfo1, rng := created.2.2 }
    else { g with rng := em.2 }
  else g

/-- PitchField.generateNotes as invoked by KuramotoSimulator.update:
light-level update, history cleanup, then the sequential loop over the
agents in index order. -/
noncomputable def generateNotes (pf0 : PitchFieldState) (agents : List KuramotoAgent)
    (currentTime lightLevel : ℝ) (playing0 : List Nat) (noteInfo0 : List (Nat × ℝ × ℝ))
    (rng : Rng) : GenResult :=
  let pf1 := cleanupOldConversation { pf0 with currentLightLevel := lightLevel } currentTime
  (List.range agents.length).foldl (generateNotesStep currentTime)
    { pf := pf1, agents := agents, notes := [], playing := playing0,
      noteInfo := noteInfo0, rng := rng }

/-- The per-agent body of KuramotoSimulator.updatePhases, reading
neighbor phases from the frozen start-of-tick arrays. -/
noncomputable def phaseStep (coupling dt : ℝ) (beatArr phraseArr : List ℝ) (numAgents i : Nat)
    (a : KuramotoAgent) : KuramotoAgent :=
  let leftNeighbor := (i + numAgents - 1) % numAgents
  let rightNeighbor := (i + 1) % numAgents
  let beatCoupling :=
    coupling * (Real.sin (beatArr.getD leftNeighbor 0 - beatArr.getD i 0) +
      Real.sin (beatArr.getD rightNeighbor 0 - beatArr.getD i 0))
  let phraseCoupling :=
    coupling * 0.5 * (Real.sin (phraseArr.getD leftNeighbor 0 - phraseArr.getD i 0) +
      Real.sin (phraseArr.getD rightNeighbor 0 - phraseArr.getD i 0))
  { a with
    lastBeatPhase := a.beatPhase,
    beatPhase := wrapPhase (a.beatPhase + (a.beatOmega + beatCoupling) * dt * (2 * Real.pi)),
    phrasePhase := wrapPhase (a.phrasePhase + (a.phraseOmega + phraseCoupling) * dt * (2 * Real.pi)) }

/-- In-place update of one agent of the population array. -/
noncomputable def modifyAgent : List KuramotoAgent → Nat →
    (KuramotoAgent → KuramotoAgent) → List KuramotoAgent
  | [], _, _ => []
  | a :: rest, 0, f => f a :: rest
  | a :: rest, Nat.succ i, f => a :: modifyAgent rest i f

/-- The body of the updatePhases loop for a fixed frozen snapshot. -/
noncomputable def phaseLoopStep (coupling dt : ℝ) (beatArr phraseArr : List ℝ)
    (numAgents : Nat) (ags : List KuramotoAgent) (i : Nat) : List KuramotoAgent :=
  modifyAgent ags i (phaseStep coupling dt beatArr phraseArr numAgents i)

/-- KuramotoSimulator.updatePhases with an explicit iteration order:
the frozen phase arrays are captured once, then each listed agent index
is updated. The source iterates in increasing index order; the order is
exposed here to state order-independence. -/
noncomputable def updatePhasesOrdered (coupling dt : ℝ) (numAgents : Nat) (order : List Nat)
    (agents : List KuramotoAgent) : List KuramotoAgent :=
  order.foldl
    (phaseLoopStep coupling dt (agents.map (fun a => a.beatPhase))
      (agents.map (fun a => a.phrasePhase)) numAgents)
    agents

/-- KuramotoSimulator.updatePhases, iterating in index order. -/
noncomputable def updatePhases (coupling dt : ℝ) (numAgents : Nat)
    (agents : List KuramotoAgent) : List KuramotoAgent :=
  updatePhasesOrdered coupling dt numAgents (List.range agents.length) agents

/-- KuramotoSimulator.attemptForaging: territory movement, sinusoidal
food availability, foraging start with energy and status gain, foraging
stop under poor conditions. -/
noncomputable def attemptForaging (dt currentTime : ℝ) (a : KuramotoAgent) : KuramotoAgent :=
  if a.speakingEnergy ≥ a.maxSpeakingEnergy * 0.95 then { a with isForaging := false }
  else if currentTime - a.lastForageTime < 2 then a
  else
    let territoryPhase := a.territoryPhase + 0.5 * dt * (2 * Real.pi)
    let foodAvailability := Real.sin territoryPhase * 0.5 + 0.5
    if foodAvailability > 0.7 ∧ a.isForaging = false then
      let energyGain := a.forageEfficiency * foodAvailability * 0.3
      { a with
        territoryPhase := territoryPhase,
        isForaging := true,
        speakingEnergy := min a.maxSpeakingEnergy (a.speakingEnergy + energyGain),
        socialStatus := min 1 (a.socialStatus + energyGain * 0.2),
        lastForageTime := currentTime,
        lastSocialTime := currentTime }
    else if foodAvailability ≤ 0.3 then
      { a with territoryPhase := territoryPhase, isForaging := false }
    else { a with territoryPhase := territoryPhase }

/-- One agent's pass of KuramotoSimulator.updateEnergyManagement:
recharge, foraging attempt, then status decay after 1 s without social
contact. -/
noncomputable def updateEnergyAgent (dt currentTime : ℝ) (a : KuramotoAgent) : KuramotoAgent :=
  let a1 := { a with
    speakingEnergy := min a.maxSpeakingEnergy (a.speakingEnergy + a.rechargeRate * dt) }
  let a2 := attemptForaging dt currentTime a1
  if currentTime - a2.lastSocialTime > 1 then
    { a2 with socialStatus := max 0 (a2.socialStatus - a2.statusDecayRate * dt) }
  else a2

/-- KuramotoSimulator.consumeSpeakingEnergy: debit the first agent with
the given id, flooring at 0, and stamp its social time with the wall
clock (Date.now in seconds). This method is defined by the simulator
but never invoked by the tick path. -/
noncomputable def consumeSpeakingEnergy : List KuramotoAgent → Nat → ℝ → ℝ →
    List KuramotoAgent
  | [], _, _, _ => []
  | a :: rest, agentId, amount, wallClockSeconds =>
      if a.id = agentId then
        { a with speakingEnergy := max 0 (a.speakingEnergy - amount),
                 lastSocialTime := wallClockSeconds } :: rest
      else a :: consumeSpeakingEnergy rest agentId amount wallClockSeconds

/-- Mutable state of the KuramotoSimulator class. -/
structure SimState where
  agents : List KuramotoAgent
  numAgents : Nat
  coupling : ℝ
  pf : PitchFieldState
  playing : List Nat
  noteInfo : List (Nat × ℝ × ℝ)

/-- KuramotoSimulator.update: energy management, playing-set reset,
expired note-info cleanup, phase update, then note generation with the
social-benefits callback. Returns the new state, the notes of this
tick and the advanced random oracle. -/
noncomputable def tick (s : SimState) (currentTime lightLevel : ℝ) (rng : Rng) :
    SimState × List NoteEvent × Rng :=
  let agents1 := s.agents.map (updateEnergyAgent simDt currentTime)
  let noteInfo1 := s.noteInfo.filter (fun e => ¬ currentTime > e.2.1 + e.2.2)
  let agents2 := updatePhases s.coupling simDt s.numAgents agents1
  let g := generateNotes s.pf agents2 currentTime lightLevel [] noteInfo1 rng
  ({ s with agents := g.agents, pf := g.pf, playing := g.playing, noteInfo := g.noteInfo },
   g.notes, g.rng)

/-- KuramotoSimulator.setCoupling: clamp the requested coupling into
[0, 1]. -/
noncomputable def setCoupling (s : SimState) (newCoupling : ℝ) : SimState :=
  { s with coupling := max 0 (min 1 newCoupling) }

/-- The worker's handleParameterChange: it only logs the request and
changes no simulation state. -/
noncomputable def handleParameterChange (s : SimState) (parameterName : String)
    (value : ℝ) : SimState :=
  s

/-- KuramotoSimulator.numAgents as set in the constructor. -/
def numAgentsConst : Nat := 16

/-- One agent of the agent-initialization routine of KuramotoSimulator,
drawing its traits from the random oracle in source order. -/
noncomputable def initAgent (i : Nat) (rng : Rng) : KuramotoAgent × Rng :=
  let d1 := rng.next
  let d2 := d1.2.next
  let d3 := d2.2.next
  let d4 := d3.2.next
  let d5 := d4.2.next
  let d6 := d5.2.next
  let d7 := d6.2.next
  let d8 := d7.2.next
  let d9 := d8.2.next
  let d10 := d9.2.next
  let d11 := d10.2.next
  let d12 := d11.2.next
  let d13 := d12.2.next
  let d14 := d13.2.next
  ({ id := i,
     beatPhase := d1.1 * (2 * Real.pi),
     phrasePhase := d2.1 * (2 * Real.pi),
     beatOmega := 1 + (d3.1 - 0.5) * 0.1,
     phraseOmega := 0.25 + (d4.1 - 0.5) * 0.02,
     size := d5.1,
     energy := 0.1 + d6.1 * 0.3,
     lastBeatPhase := 0,
     speakingEnergy := 0.7 + d7.1 * 0.3,
     maxSpeakingEnergy := 0.7 + d8.1 * 0.3,
     speakingCost := 0.15 + d9.1 * 0.1,
     rechargeRate := 0.08 + d10.1 * 0.04,
     territoryPhase := d11.1 * (2 * Real.pi),
     forageEfficiency := 0.5 + d12.1 * 0.5,
     lastForageTime := 0,
     isForaging := false,
     socialStatus := 0.3 + d13.1 * 0.4,
     statusDecayRate := 0.05 + d14.1 * 0.03,
     lastSocialTime := 0,
     recentNotes := [],
     degreeWeights := [1, 1, 1, 1, 1, 1, 1, 1, 1, 1, 1, 1] }, d14.2)

/-- The agent-initialization routine of KuramotoSimulator: sixteen
freshly drawn agents. Invoked only from the class constructor. -/
noncomputable def initAgents (rng : Rng) : List KuramotoAgent :=
  ((List.range numAgentsConst).foldl (fun acc i =>
    let made := initAgent i acc.2
    (acc.1 ++ [made.1], made.2)) (([] : List KuramotoAgent), rng)).1

/-- Mutable state of the EnvironmentSimulator class (the fields touched
by start and stop; the interval handles are modelled as ticking
flags). -/
structure EnvSimState where
  isRunning : Bool
  envTicking : Bool
  phaseTicking : Bool
  time : ℝ
  audioStartTime : ℝ
  sim : SimState

/-- EnvironmentSimulator.start: a no-op while running; otherwise reset
the clock, mark running and start the two intervals. The embedded
KuramotoSimulator state is untouched (KuramotoSimulator.start only
logs). -/
noncomputable def envStart (s : EnvSimState) (perfNowMs : ℝ) : EnvSimState :=
  if s.isRunning = true then s
  else { s with isRunning := true, time := 0, audioStartTime := perfNowMs / 1000,
                envTicking := true, phaseTicking := true }

/-- EnvironmentSimulator.stop: a no-op while stopped; otherwise mark
stopped and clear the two intervals. -/
noncomputable def envStop (s : EnvSimState) : EnvSimState :=
  if s.isRunning = false then s
  else { s with isRunning := false, envTicking := false, phaseTicking := false }

/-- C6: beat-crossing detection at the three concrete spec examples:
wraparound crossing (6.2 to 0.1 over threshold 0.05) is detected, the
normal crossing (0.1 to 0.2 over 0.15) is detected, and 0.25 is not
crossed by the step from 0.1 to 0.2. -/
theorem c6_theorem :
    crossedPhase 6.2 0.1 0.05 = true ∧
    crossedPhase 0.1 0.2 0.15 = true ∧
    crossedPhase 0.1 0.2 0.25 = false := by
  refine ⟨?_, ?_, ?_⟩
  · unfold crossedPhase
    rw [if_pos (by norm_num), if_pos (by norm_num)]
  · unfold crossedPhase
    rw [if_neg (by norm_num), if_pos (by norm_num)]
  · unfold crossedPhase
    rw [if_neg (by norm_num), if_neg (by norm_num)]

/-- The composite of the JS remainder and the negative fix-up keeps
every wrapped phase inside [0, 2*pi). -/
theorem wrapPhase_bounds (x : ℝ) : 0 ≤ wrapPhase x ∧ wrapPhase x < 2 * Real.pi := by
  have hy : (0 : ℝ) < 2 * Real.pi := by positivity
  have hx : 2 * Real.pi * (x / (2 * Real.pi)) = x := by field_simp
  unfold wrapPhase jsMod jsTrunc
  by_cases h : 0 ≤ x / (2 * Real.pi)
  · rw [if_pos h]
    have hfl : (⌊x / (2 * Real.pi)⌋ : ℝ) ≤ x / (2 * Real.pi) := Int.floor_le _
    have hfl2 : x / (2 * Real.pi) < (⌊x / (2 * Real.pi)⌋ : ℝ) + 1 := Int.lt_floor_add_one _
    have hm0 : 0 ≤ x - 2 * Real.pi * (⌊x / (2 * Real.pi)⌋ : ℝ) := by nlinarith
    have hm1 : x - 2 * Real.pi * (⌊x / (2 * Real.pi)⌋ : ℝ) < 2 * Real.pi := by nlinarith
    rw [if_neg (not_lt.mpr hm0)]
    exact ⟨hm0, hm1⟩
  · rw [if_neg h]
    have hce : x / (2 * Real.pi) ≤ (⌈x / (2 * Real.pi)⌉ : ℝ) := Int.le_ceil _
    have hce2 : (⌈x / (2 * Real.pi)⌉ : ℝ) < x / (2 * Real.pi) + 1 := Int.ceil_lt_add_one _
    have hm0 : x - 2 * Real.pi * (⌈x / (2 * Real.pi)⌉ : ℝ) ≤ 0 := by nlinarith
    have hm1 : -(2 * Real.pi) < x - 2 * Real.pi * (⌈x / (2 * Real.pi)⌉ : ℝ) := by nlinarith
    by_cases hneg : x - 2 * Real.pi * (⌈x / (2 * Real.pi)⌉ : ℝ) < 0
    · rw [if_pos hneg]
      constructor <;> nlinarith
    · rw [if_neg hneg]
      constructor <;> nlinarith

/-- Concrete agent exhibiting the territory-phase overflow: its
territory phase 6.2 is still inside [0, 2*pi), it is hungry enough to
forage and its forage cooldown has expired. -/
noncomputable def c4agent : KuramotoAgent :=
  { defaultAgent with
    territoryPhase := 6.2, speakingEnergy := 0.5, maxSpeakingEnergy := 1,
    lastForageTime := 0 }

/-- C4: beat and phrase phases are wrapped into [0, 2*pi) by every
update, but the territory phase is only ever incremented, never
wrapped: one foraging attempt at territoryPhase 6.2 leaves it at
6.2 + 0.05*pi, which is at least 2*pi — contradicting the claim (and
the declared 0-2*pi range of the field) that all phase values stay in
[0, 2*pi). -/
theorem c4_code_bug :
    (∀ x : ℝ, 0 ≤ wrapPhase x ∧ wrapPhase x < 2 * Real.pi) ∧
    (attemptForaging simDt 10 c4agent).territoryPhase = 6.2 + 0.5 * simDt * (2 * Real.pi) ∧
    2 * Real.pi ≤ (attemptForaging simDt 10 c4agent).territoryPhase := by
  have hguard1 : ¬ (c4agent.speakingEnergy ≥ c4agent.maxSpeakingEnergy * 0.95) := by
    simp only [c4agent, defaultAgent]
    norm_num
  have hguard2 : ¬ ((10 : ℝ) - c4agent.lastForageTime < 2) := by
    simp only [c4agent, defaultAgent]
    norm_num
  have hterr : (attemptForaging simDt 10 c4agent).territoryPhase
      = 6.2 + 0.5 * simDt * (2 * Real.pi) := by
    unfold attemptForaging
    rw [if_neg hguard1, if_neg hguard2]
    dsimp only []
    split_ifs <;> simp [c4agent, defaultAgent]
  refine ⟨wrapPhase_bounds, hterr, ?_⟩
  rw [hterr]
  unfold simDt
  nlinarith [Real.pi_gt_d6, Real.pi_lt_d2]

/-- Updating one array slot looks up elements as expected. -/
theorem modifyAgent_getElem? (f : KuramotoAgent → KuramotoAgent) :
    ∀ (l : List KuramotoAgent) (i j : Nat),
      (modifyAgent l i f)[j]? = if j = i then (l[j]?).map f else l[j]? := by
  intro l
  induction l with
  | nil => intro i j; cases i <;> cases j <;> simp [modifyAgent]
  | cons a rest ih =>
      intro i j
      cases i with
      | zero =>
          cases j with
          | zero => simp [modifyAgent]
          | succ j => simp [modifyAgent]
      | succ i =>
          cases j with
          | zero => simp [modifyAgent]
          | succ j => simpa [modifyAgent] using ih i j

/-- Element view of the updatePhases loop run over any duplicate-free
iteration order: each listed index is rewritten by its own frozen-phase
update and every other index is untouched. -/
theorem phaseLoop_getElem? (coupling dt : ℝ) (beatArr phraseArr : List ℝ) (numAgents : Nat) :
    ∀ (order : List Nat), order.Nodup → ∀ (ags : List KuramotoAgent) (j : Nat),
      (order.foldl (phaseLoopStep coupling dt beatArr phraseArr numAgents) ags)[j]?
        = if j ∈ order then
            (ags[j]?).map (phaseStep coupling dt beatArr phraseArr numAgents j)
          else ags[j]? := by
  intro order
  induction order with
  | nil => intro _ ags j; simp
  | cons i os ih =>
      intro hnd ags j
      have hios : i ∉ os := (List.nodup_cons.mp hnd).1
      have hos : os.Nodup := (List.nodup_cons.mp hnd).2
      rw [List.foldl_cons, ih hos]
      by_cases hj : j = i
      · subst hj
        have hjos : j ∉ os := hios
        rw [if_neg hjos, if_pos (List.mem_cons_self j os)]
        rw [phaseLoopStep, modifyAgent_getElem?, if_pos rfl]
      · by_cases hjo : j ∈ os
        · rw [if_pos hjo, if_pos (List.mem_cons_of_mem i hjo)]
          rw [phaseLoopStep, modifyAgent_getElem?, if_neg hj]
        · rw [if_neg hjo, if_neg ?_]
          · rw [phaseLoopStep, modifyAgent_getElem?, if_neg hj]
          · intro hmem
            rcases List.mem_cons.mp hmem with h1 | h2
            · exact hj h1
            · exact hjo h2

/-- List lookup with default through the optional lookup. -/
theorem getD_eq_getElem?D {α : Type} (l : List α) (i : Nat) (d : α) :
    l.getD i d = (l[i]?).getD d := by
  simp [List.getD]

/-- C1: with the frozen start-of-tick snapshot, running the phase loop
over any permutation of the agent indices produces the same population
as the source's increasing-index iteration (order independence), and
each agent's new beat phase is exactly the wrapped Kuramoto update from
its own and its two ring neighbors' frozen phases; the phrase channel
obeys the same rule with the coupling halved. -/
theorem c1_theorem (coupling dt : ℝ) (numAgents : Nat) (agents : List KuramotoAgent)
    (order : List Nat) (hperm : order.Perm (List.range agents.length)) :
    updatePhasesOrdered coupling dt numAgents order agents
        = updatePhases coupling dt numAgents agents ∧
    ∀ i, i < agents.length →
      ((updatePhases coupling dt numAgents agents).getD i defaultAgent).beatPhase
        = wrapPhase ((agents.getD i defaultAgent).beatPhase +
            ((agents.getD i defaultAgent).beatOmega +
              coupling *
                (Real.sin ((agents.map (fun a => a.beatPhase)).getD ((i + numAgents - 1) % numAgents) 0 -
                    (agents.map (fun a => a.beatPhase)).getD i 0) +
                 Real.sin ((agents.map (fun a => a.beatPhase)).getD ((i + 1) % numAgents) 0 -
                    (agents.map (fun a => a.beatPhase)).getD i 0))) * dt * (2 * Real.pi)) ∧
      ((updatePhases coupling dt numAgents agents).getD i defaultAgent).phrasePhase
        = wrapPhase ((agents.getD i defaultAgent).phrasePhase +
            ((agents.getD i defaultAgent).phraseOmega +
              coupling * 0.5 *
                (Real.sin ((agents.map (fun a => a.phrasePhase)).getD ((i + numAgents - 1) % numAgents) 0 -
                    (agents.map (fun a => a.phrasePhase)).getD i 0) +
                 Real.sin ((agents.map (fun a => a.phrasePhase)).getD ((i + 1) % numAgents) 0 -
                    (agents.map (fun a => a.phrasePhase)).getD i 0))) * dt * (2 * Real.pi)) := by
  have hndOrder : order.Nodup := (hperm.nodup_iff).mpr (List.nodup_range _)
  have hndRange : (List.range agents.length).Nodup := List.nodup_range _
  have hget : ∀ i, i < agents.length →
      (updatePhases coupling dt numAgents agents)[i]?
        = (agents[i]?).map
            (phaseStep coupling dt (agents.map (fun a => a.beatPhase))
              (agents.map (fun a => a.phrasePhase)) numAgents i) := by
    intro i hi
    unfold updatePhases updatePhasesOrdered
    rw [phaseLoop_getElem? _ _ _ _ _ _ hndRange, if_pos (List.mem_range.mpr hi)]
  constructor
  · apply List.ext_getElem?
    intro j
    unfold updatePhases updatePhasesOrdered
    rw [phaseLoop_getElem? _ _ _ _ _ _ hndOrder, phaseLoop_getElem? _ _ _ _ _ _ hndRange]
    have hmem : j ∈ order ↔ j ∈ List.range agents.length := hperm.mem_iff
    by_cases hj : j ∈ order
    · rw [if_pos hj, if_pos (hmem.mp hj)]
    · rw [if_neg hj, if_neg (fun hc => hj (hmem.mpr hc))]
  · intro i hi
    have hsome : agents[i]? = some (agents.getD i defaultAgent) := by
      rw [getD_eq_getElem?D]
      rcases List.getElem?_eq_some_iff.mpr ⟨hi, rfl⟩ with h
      rw [h]
      rfl
    have h1 := hget i hi
    rw [hsome] at h1
    have h2 : (updatePhases coupling dt numAgents agents).getD i defaultAgent
        = phaseStep coupling dt (agents.map (fun a => a.beatPhase))
            (agents.map (fun a => a.phrasePhase)) numAgents i
            (agents.getD i defaultAgent) := by
      rw [getD_eq_getElem?D, h1]
      rfl
    rw [h2]
    constructor <;> rfl

/-- Witness for C1 at a concrete two-agent population and the reversed
iteration order. -/
theorem c1_witness :
    ([1, 0] : List Nat).Perm
        (List.range ([defaultAgent, defaultAgent] : List KuramotoAgent).length) ∧
    updatePhasesOrdered 1 1 2 [1, 0] [defaultAgent, defaultAgent]
      = updatePhases 1 1 2 [defaultAgent, defaultAgent] :=
  ⟨by decide, (c1_theorem 1 1 2 [defaultAgent, defaultAgent] [1, 0] (by decide)).1⟩

/-- C5: whenever the conversation scheduler is in its cooldown state at
decision time (elapsed time since the last conversation end below the
cooldown duration, evaluated on the cleaned-up history), no agent is
granted emission in the tick, so the tick produces no note events —
for every population, every energy value and every random oracle. -/
theorem c5_theorem (pf0 : PitchFieldState) (agents : List KuramotoAgent)
    (currentTime lightLevel : ℝ) (playing0 : List Nat) (noteInfo0 : List (Nat × ℝ × ℝ))
    (rng : Rng)
    (hcool : (getConversationState
        (cleanupOldConversation { pf0 with currentLightLevel := lightLevel } currentTime)
        currentTime).isInCooldown = true) :
    (generateNotes pf0 agents currentTime lightLevel playing0 noteInfo0 rng).notes = [] := by
  have hstep : ∀ (g : GenResult) (k : Nat),
      g.pf = cleanupOldConversation { pf0 with currentLightLevel := lightLevel } currentTime →
      generateNotesStep currentTime g k = g := by
    intro g k hpf
    have hemit : shouldEmitNote g.pf (g.agents.getD k defaultAgent).id
        (g.agents.getD k defaultAgent).energy g.agents.length currentTime g.rng
        = (false, g.rng) := by
      simp only [shouldEmitNote]
      rw [hpf, if_pos hcool]
    simp only [generateNotesStep]
    rw [hemit]
    split_ifs with h1 h2
    · simp at h2
    · rfl
    · rfl
  have hfold : ∀ (l : List Nat) (g : GenResult),
      g.pf = cleanupOldConversation { pf0 with currentLightLevel := lightLevel } currentTime →
      l.foldl (generateNotesStep currentTime) g = g := by
    intro l
    induction l with
    | nil => intro g _; rfl
    | cons k ks ih =>
        intro g hg
        rw [List.foldl_cons, hstep g k hg]
        exact ih g hg
  unfold generateNotes
  rw [hfold _ _ rfl]

/-- A pitch field fresh from the constructor. -/
noncomputable def c5pf : PitchFieldState :=
  { currentLightLevel := 0.5, conversationHistory := [],
    lastConversationEnd := 0, conversationCooldown := 15 }

/-- A beat-crossing agent at full energy. -/
noncomputable def c5agent : KuramotoAgent :=
  { defaultAgent with beatPhase := Real.pi, lastBeatPhase := 0, energy := 1 }

/-- A concrete random oracle that always draws zero (the draw most
favorable to emission). -/
noncomputable def c5rng : Rng := ⟨fun _ => 0, 0⟩

/-- Witness for C5: five seconds after startup the scheduler is in
cooldown, and a tick over a beat-crossing full-energy agent with the
always-zero draw still emits nothing. -/
theorem c5_witness :
    (getConversationState
        (cleanupOldConversation { c5pf with currentLightLevel := 0.5 } 5) 5).isInCooldown
      = true ∧
    (generateNotes c5pf [c5agent] 5 0.5 [] [] c5rng).notes = [] := by
  have h : (getConversationState
      (cleanupOldConversation { c5pf with currentLightLevel := 0.5 } 5) 5).isInCooldown
      = true := by
    unfold getConversationState cleanupOldConversation c5pf
    simp only [List.filter_nil, List.getLast?_nil]
    rw [if_pos (show (5 : ℝ) - 0 < 15 by norm_num)]
  exact ⟨h, c5_theorem c5pf [c5agent] 5 0.5 [] [] c5rng h⟩

/-- Summing a list after dividing by a constant and scaling. -/
theorem sum_map_div_mul (l : List ℝ) (T c : ℝ) :
    (l.map (fun x => x / T * c)).sum = l.sum / T * c := by
  induction l with
  | nil => simp
  | cons a rest ih =>
      simp only [List.map_cons, List.sum_cons, ih]
      ring

/-- C2 as amended: after every renormalization whose pre-normalization
total is positive, every degree weight is at least 0.1 and the vector's
sum is at least 12 — but the sum is not a constant: clamping at the 0.1
floor can push it strictly above 12, so only the lower bound holds. -/
theorem c2_theorem (w : List ℝ) (hpos : 0 < w.sum) :
    (∀ x ∈ renormalizeWeights w, 0.1 ≤ x) ∧ 12 ≤ (renormalizeWeights w).sum := by
  unfold renormalizeWeights
  rw [if_pos hpos]
  constructor
  · intro x hx
    rcases List.mem_map.mp hx with ⟨y, _, rfl⟩
    exact le_max_left _ _
  · have h1 : (w.map (fun x => x / w.sum * 12)).sum
        ≤ (w.map (fun x => max 0.1 (x / w.sum * 12))).sum :=
      List.sum_le_sum (fun a _ => le_max_right _ _)
    rw [sum_map_div_mul, div_self (ne_of_gt hpos), one_mul] at h1
    exact h1

/-- Witness for C2 at the uniform initial weight vector. -/
theorem c2_witness :
    (0 : ℝ) < (List.replicate 12 (1 : ℝ)).sum ∧
    (∀ x ∈ renormalizeWeights (List.replicate 12 (1 : ℝ)), 0.1 ≤ x) ∧
    12 ≤ (renormalizeWeights (List.replicate 12 (1 : ℝ))).sum := by
  have h : (0 : ℝ) < (List.replicate 12 (1 : ℝ)).sum := by
    simp [List.sum_replicate]
    norm_num
  exact ⟨h, (c2_theorem _ h).1, (c2_theorem _ h).2⟩

/-- Weight vector whose first entry sits just above the clamping
region. -/
noncomputable def c2w0 : List ℝ := [0.101, 1, 1, 1, 1, 1, 1, 1, 1, 1, 1, 1]

/-- The agent performing the two learning updates. -/
noncomputable def c2a0 : KuramotoAgent :=
  { defaultAgent with id := 0, degreeWeights := c2w0 }

/-- The note (degree 0) played by the learning agent. -/
noncomputable def c2n0 : RecentNote := { degree := 0, time := 0, agentId := 0 }

/-- A neighbor whose simultaneous note forms a unison (consonant)
interval with degree 0. -/
noncomputable def c2b1 : KuramotoAgent :=
  { defaultAgent with id := 1, recentNotes := [{ degree := 0, time := 0, agentId := 1 }] }

/-- A simultaneous neighbor note at degree 1 (a minor second against
degree 0). -/
noncomputable def c2penNote : RecentNote := { degree := 1, time := 0, agentId := 2 }

/-- First neighbor supplying two dissonant notes. -/
noncomputable def c2b2 : KuramotoAgent :=
  { defaultAgent with id := 2, recentNotes := [c2penNote, c2penNote] }

/-- Second neighbor supplying two dissonant notes. -/
noncomputable def c2b3 : KuramotoAgent :=
  { defaultAgent with id := 3, recentNotes := [c2penNote, c2penNote] }

/-- A concrete random oracle for the learning updates (only the logging
draw consumes it). -/
noncomputable def c2rng : Rng := ⟨fun _ => 1 / 2, 0⟩

/-- The weight vector after the first (consonant) update: scaled to sum
exactly 12, no entry clamped. -/
noncomputable def c2w1 : List ℝ :=
  [44 / 337, 4000 / 3707, 4000 / 3707, 4000 / 3707, 4000 / 3707, 4000 / 3707,
   4000 / 3707, 4000 / 3707, 4000 / 3707, 4000 / 3707, 4000 / 3707, 4000 / 3707]

/-- The agent state after the first learning update. -/
noncomputable def c2a1 : KuramotoAgent :=
  { c2a0 with recentNotes := [c2n0], degreeWeights := c2w1 }

/-- Evaluating the first learning update: one +0.02 reinforcement on
entry 0 followed by renormalization, which clamps nothing. -/
theorem c2_first_step :
    (updateAgentLearning c2a0 c2n0 [c2a0, c2b1] 0 c2rng).1 = c2a1 := by
  norm_num [updateAgentLearning, c2a0, c2a1, c2b1, c2n0, c2w0, c2w1, defaultAgent,
    getChromaticScale, listModify, renormalizeWeights, List.filter_cons,
    decide_eq_true_eq, List.findIdx?]

/-- C2 counterexample: starting from the weight vector c2w0, a single
reinforced renormalization yields sum exactly 12, but a following
update with four −0.01 penalties drives entry 0 under the clamping
threshold, and the renormalized vector sums strictly above 12 — the
sum is not the same constant after every renormalization. -/
theorem c2_counterexample :
    (updateAgentLearning c2a0 c2n0 [c2a0, c2b1] 0 c2rng).1.degreeWeights.sum = 12 ∧
    (updateAgentLearning (updateAgentLearning c2a0 c2n0 [c2a0, c2b1] 0 c2rng).1 c2n0
        [(updateAgentLearning c2a0 c2n0 [c2a0, c2b1] 0 c2rng).1, c2b2, c2b3] 0
        c2rng).1.degreeWeights.sum ≠ 12 := by
  rw [c2_first_step]
  constructor
  · norm_num [c2a1, c2w1]
  · norm_num [updateAgentLearning, c2a1, c2a0, c2b2, c2b3, c2n0, c2penNote, c2w1,
      defaultAgent, getChromaticScale, listModify, renormalizeWeights, List.filter_cons,
      decide_eq_true_eq, List.findIdx?]

/-- Drawing preserves the underlying random stream. -/
theorem vals_next (r : Rng) : r.next.2.vals = r.vals := rfl

/-- The octave computation only advances the cursor of the stream. -/
theorem vals_getOctave (s : ℝ) (r : Rng) : (getOctaveFromSize s r).2.vals = r.vals := rfl

/-- Degree selection only advances the cursor of the stream. -/
theorem vals_selectDegree (a : KuramotoAgent) (scale : List ℤ) (r : Rng) :
    (selectDegreeWithLearning a scale r).2.vals = r.vals := by
  unfold selectDegreeWithLearning
  dsimp only []
  split_ifs with h
  · rfl
  · split <;> rfl

/-- The learning update only advances the cursor of the stream. -/
theorem vals_updateLearning (a : KuramotoAgent) (n : RecentNote)
    (allAgents : List KuramotoAgent) (t : ℝ) (r : Rng) :
    (updateAgentLearning a n allAgents t r).2.vals = r.vals := rfl

/-- A draw from any stage of the pipeline is a value of the original
stream, hence obeys its bounds. -/
theorem draw_bounds (r s : Rng) (h : s.vals = r.vals)
    (hr : ∀ n, 0 ≤ r.vals n ∧ r.vals n < 1) : 0 ≤ s.next.1 ∧ s.next.1 < 1 := by
  have hs : s.next.1 = r.vals s.idx := by
    rw [show s.next.1 = s.vals s.idx from rfl, h]
  rw [hs]
  exact hr s.idx

/-- C10: for an agent with energy in [0, 1] and any Math.random draws
(all in [0, 1)), every produced note has amplitude exactly energy times
0.06 (hence at most 0.06), duration in [1.5, 6], timbre in [0.1, 0.4],
scheduled start time exactly the requested audio time plus the 0.1 s
look-ahead, and strictly positive frequency. -/
theorem c10_theorem (pf : PitchFieldState) (a : KuramotoAgent) (t : ℝ)
    (allAgents : List KuramotoAgent) (r : Rng)
    (hE0 : 0 ≤ a.energy) (hE1 : a.energy ≤ 1)
    (hr : ∀ n, 0 ≤ r.vals n ∧ r.vals n < 1) :
    (createNoteFromAgent pf a t allAgents r).1.amp = a.energy * 0.06 ∧
    (createNoteFromAgent pf a t allAgents r).1.amp ≤ 0.06 ∧
    1.5 ≤ (createNoteFromAgent pf a t allAgents r).1.dur ∧
    (createNoteFromAgent pf a t allAgents r).1.dur ≤ 6 ∧
    0.1 ≤ (createNoteFromAgent pf a t allAgents r).1.timbre ∧
    (createNoteFromAgent pf a t allAgents r).1.timbre ≤ 0.4 ∧
    (createNoteFromAgent pf a t allAgents r).1.startTime = t + 0.1 ∧
    0 < (createNoteFromAgent pf a t allAgents r).1.freq := by
  have hvalsOct : (getOctaveFromSize a.size
      (selectDegreeWithLearning a getChromaticScale r).2).2.vals = r.vals := by
    rw [vals_getOctave, vals_selectDegree]
  have hdurDraw : 0 ≤ ((getOctaveFromSize a.size
        (selectDegreeWithLearning a getChromaticScale r).2).2.next.2).next.1 ∧
      ((getOctaveFromSize a.size
        (selectDegreeWithLearning a getChromaticScale r).2).2.next.2).next.1 < 1 := by
    refine draw_bounds r _ ?_ hr
    rw [vals_next, hvalsOct]
  have hdur : (createNoteFromAgent pf a t allAgents r).1.dur
      = 1.5 + ((getOctaveFromSize a.size
          (selectDegreeWithLearning a getChromaticScale r).2).2.next.2).next.1 * 4.5 := rfl
  have htimbreRng : ((updateAgentLearning a
      { degree := getChromaticScale.getD (selectDegreeWithLearning a getChromaticScale r).1 0,
        time := t, agentId := a.id } allAgents t
      (((getOctaveFromSize a.size
          (selectDegreeWithLearning a getChromaticScale r).2).2.next.2).next.2)).2).vals
      = r.vals := by
    rw [vals_updateLearning, vals_next, vals_next, hvalsOct]
  have htimbreDraw : 0 ≤ ((updateAgentLearning a
        { degree := getChromaticScale.getD (selectDegreeWithLearning a getChromaticScale r).1 0,
          time := t, agentId := a.id } allAgents t
        (((getOctaveFromSize a.size
            (selectDegreeWithLearning a getChromaticScale r).2).2.next.2).next.2)).2).next.1 ∧
      ((updateAgentLearning a
        { degree := getChromaticScale.getD (selectDegreeWithLearning a getChromaticScale r).1 0,
          time := t, agentId := a.id } allAgents t
        (((getOctaveFromSize a.size
            (selectDegreeWithLearning a getChromaticScale r).2).2.next.2).next.2)).2).next.1 < 1 :=
    draw_bounds r _ htimbreRng hr
  have htimbre : (createNoteFromAgent pf a t allAgents r).1.timbre
      = 0.1 + ((updateAgentLearning a
          { degree := getChromaticScale.getD (selectDegreeWithLearning a getChromaticScale r).1 0,
            time := t, agentId := a.id } allAgents t
          (((getOctaveFromSize a.size
              (selectDegreeWithLearning a getChromaticScale r).2).2.next.2).next.2)).2).next.1
          * 0.3 := rfl
  refine ⟨rfl, ?_, ?_, ?_, ?_, ?_, ?_, ?_⟩
  · have : (createNoteFromAgent pf a t allAgents r).1.amp = a.energy * 0.06 := rfl
    rw [this]
    nlinarith
  · rw [hdur]
    nlinarith [hdurDraw.1]
  · rw [hdur]
    nlinarith [hdurDraw.2]
  · rw [htimbre]
    nlinarith [htimbreDraw.1]
  · rw [htimbre]
    nlinarith [htimbreDraw.2]
  · rfl
  · have hfreq : (createNoteFromAgent pf a t allAgents r).1.freq
        = tonic * (2 : ℝ) ^ ((getOctaveFromSize a.size
              (selectDegreeWithLearning a getChromaticScale r).2).1 - baseOctave)
          * (2 : ℝ) ^ ((((getChromaticScale.getD (selectDegreeWithLearning a getChromaticScale r).1 0
                + getCurrentTonicShift pf) % 12 : ℤ) : ℝ) / 12)
          * (2 : ℝ) ^ ((((getOctaveFromSize a.size
              (selectDegreeWithLearning a getChromaticScale r).2).2.next).1 - 0.5) * (2 / 96)) := rfl
    rw [hfreq]
    have h220 : (0 : ℝ) < tonic := by norm_num [tonic]
    exact mul_pos (mul_pos (mul_pos h220 (Real.rpow_pos_of_pos (by norm_num) _))
      (Real.rpow_pos_of_pos (by norm_num) _)) (Real.rpow_pos_of_pos (by norm_num) _)

/-- A pitch field for the C10 witness. -/
noncomputable def c10pf : PitchFieldState :=
  { currentLightLevel := 0.5, conversationHistory := [],
    lastConversationEnd := 0, conversationCooldown := 15 }

/-- An agent at half energy for the C10 witness. -/
noncomputable def c10agent : KuramotoAgent := { defaultAgent with energy := 1 / 2 }

/-- A constant half stream for the C10 witness. -/
noncomputable def c10rng : Rng := ⟨fun _ => 1 / 2, 0⟩

/-- Witness for C10 at a concrete agent, time and stream. -/
theorem c10_witness :
    ((0 : ℝ) ≤ c10agent.energy ∧ c10agent.energy ≤ 1 ∧
      ∀ n, 0 ≤ c10rng.vals n ∧ c10rng.vals n < 1) ∧
    0 < (createNoteFromAgent c10pf c10agent 0 [] c10rng).1.freq := by
  have h0 : (0 : ℝ) ≤ c10agent.energy := by norm_num [c10agent, defaultAgent]
  have h1 : c10agent.energy ≤ 1 := by norm_num [c10agent, defaultAgent]
  have h2 : ∀ n, 0 ≤ c10rng.vals n ∧ c10rng.vals n < 1 := by
    intro n
    norm_num [c10rng]
  exact ⟨⟨h0, h1, h2⟩,
    (c10_theorem c10pf c10agent 0 [] c10rng h0 h1 h2).2.2.2.2.2.2.2⟩

/-- Two agent records that agree on every field except possibly
speakingEnergy. -/
def AgreeES (a b : KuramotoAgent) : Prop :=
  ∃ se, b = { a with speakingEnergy := se }

/-- Every agent agrees with itself up to speaking energy. -/
theorem agreeES_refl (a : KuramotoAgent) : AgreeES a a :=
  ⟨a.speakingEnergy, rfl⟩

/-- Defaulted indexing respects the agreement relation. -/
theorem forall2_getD {l1 l2 : List KuramotoAgent} (h : List.Forall₂ AgreeES l1 l2) :
    ∀ k, AgreeES (l1.getD k defaultAgent) (l2.getD k defaultAgent) := by
  induction h with
  | nil => intro k; exact agreeES_refl _
  | cons hab hrest ih =>
      intro k
      cases k with
      | zero => simpa using hab
      | succ k => simpa using ih k

/-- Writing agreeing values into the same slot preserves agreement. -/
theorem forall2_set {x y : KuramotoAgent} (hxy : AgreeES x y) :
    ∀ {l1 l2 : List KuramotoAgent}, List.Forall₂ AgreeES l1 l2 →
      ∀ k, List.Forall₂ AgreeES (l1.set k x) (l2.set k y) := by
  intro l1 l2 h
  induction h with
  | nil => intro k; exact List.Forall₂.nil
  | cons hab hrest ih =>
      intro k
      cases k with
      | zero => exact List.Forall₂.cons hxy hrest
      | succ k => exact List.Forall₂.cons hab (ih k)

/-- Agreeing populations have identical id sequences. -/
theorem forall2_map_id {l1 l2 : List KuramotoAgent} (h : List.Forall₂ AgreeES l1 l2) :
    l1.map (fun a => a.id) = l2.map (fun a => a.id) := by
  induction h with
  | nil => rfl
  | cons hab hrest ih =>
      obtain ⟨se, rfl⟩ := hab
      simpa using ih

/-- Agreeing populations yield the same neighbor-note collection. -/
theorem forall2_neighborNotes (aid : Nat) (p : RecentNote → Bool) :
    ∀ {l1 l2 : List KuramotoAgent}, List.Forall₂ AgreeES l1 l2 →
      (l1.filter (fun o => o.id ≠ aid)).flatMap (fun o => o.recentNotes.filter p)
        = (l2.filter (fun o => o.id ≠ aid)).flatMap (fun o => o.recentNotes.filter p) := by
  intro l1
  induction l1 with
  | nil => intro l2 h; cases h; rfl
  | cons a t ih =>
      intro l2 h
      cases h with
      | cons hab hrest =>
          obtain ⟨se, rfl⟩ := hab
          rw [List.filter_cons, List.filter_cons]
          by_cases hid : a.id ≠ aid
          · rw [if_pos (by simpa using hid), if_pos (by simpa using hid)]
            rw [List.flatMap_cons, List.flatMap_cons]
            dsimp only
            rw [ih hrest]
          · rw [if_neg (by simpa using hid), if_neg (by simpa using hid)]
            exact ih hrest

/-- Degree selection ignores the speaking energy. -/
theorem selectDegree_agree (a : KuramotoAgent) (se : ℝ) (scale : List ℤ) (r : Rng) :
    selectDegreeWithLearning { a with speakingEnergy := se } scale r
      = selectDegreeWithLearning a scale r := rfl

/-- The learning update ignores speaking energy everywhere: performed
on agreeing agents against agreeing populations it returns agreeing
agents. -/
theorem updateLearning_agree (a : KuramotoAgent) (se : ℝ) (n : RecentNote)
    {l1 l2 : List KuramotoAgent} (hl : List.Forall₂ AgreeES l1 l2) (t : ℝ) (r : Rng) :
    AgreeES (updateAgentLearning a n l1 t r).1
      (updateAgentLearning { a with speakingEnergy := se } n l2 t r).1 := by
  refine ⟨se, ?_⟩
  unfold updateAgentLearning
  dsimp only
  rw [← forall2_neighborNotes a.id (fun note => decide (|note.time - t| ≤ 0.3)) hl]

/-- Note creation ignores speaking energy: the produced note and
advanced stream are identical, and the learning-updated agent agrees
with its counterpart. -/
theorem createNote_agree (pf : PitchFieldState) (a : KuramotoAgent) (se : ℝ)
    {l1 l2 : List KuramotoAgent} (hl : List.Forall₂ AgreeES l1 l2) (t : ℝ) (r : Rng) :
    (createNoteFromAgent pf { a with speakingEnergy := se } t l2 r).1
        = (createNoteFromAgent pf a t l1 r).1 ∧
    AgreeES (createNoteFromAgent pf a t l1 r).2.1
      (createNoteFromAgent pf { a with speakingEnergy := se } t l2 r).2.1 ∧
    (createNoteFromAgent pf { a with speakingEnergy := se } t l2 r).2.2
        = (createNoteFromAgent pf a t l1 r).2.2 := by
  refine ⟨rfl, ?_, rfl⟩
  exact updateLearning_agree a se _ hl t _

/-- Array.prototype.find by id returns agreeing results on agreeing
populations. -/
theorem forall2_find_id (i : Nat) :
    ∀ {l1 l2 : List KuramotoAgent}, List.Forall₂ AgreeES l1 l2 →
      (l1.find? (fun a => a.id = i) = none ∧ l2.find? (fun a => a.id = i) = none) ∨
      ∃ x se, l1.find? (fun a => a.id = i) = some x ∧
        l2.find? (fun a => a.id = i) = some { x with speakingEnergy := se } := by
  intro l1
  induction l1 with
  | nil =>
      intro l2 h
      cases h
      exact Or.inl ⟨rfl, rfl⟩
  | cons a t ih =>
      intro l2 h
      cases h with
      | cons hab hrest =>
          obtain ⟨se, rfl⟩ := hab
          by_cases hid : a.id = i
          · refine Or.inr ⟨a, se, ?_, ?_⟩
            · rw [List.find?_cons_of_pos _ (by simpa using hid)]
            · rw [List.find?_cons_of_pos _ (by simpa using hid)]
          · rcases ih hrest with ⟨hn1, hn2⟩ | ⟨x, se2, hx1, hx2⟩
            · refine Or.inl ⟨?_, ?_⟩
              · rw [List.find?_cons_of_neg _ (by simpa using hid)]
                exact hn1
              · rw [List.find?_cons_of_neg _ (by simpa using hid)]
                exact hn2
            · refine Or.inr ⟨x, se2, ?_, ?_⟩
              · rw [List.find?_cons_of_neg _ (by simpa using hid)]
                exact hx1
              · rw [List.find?_cons_of_neg _ (by simpa using hid)]
                exact hx2

/-- The nearby-agent filter returns agreeing sublists for agreeing
populations and speakers. -/
theorem forall2_nearby (s : KuramotoAgent) (se : ℝ) :
    ∀ {l1 l2 : List KuramotoAgent}, List.Forall₂ AgreeES l1 l2 →
      List.Forall₂ AgreeES (nearbyAgentsOf l1 s)
        (nearbyAgentsOf l2 { s with speakingEnergy := se }) := by
  intro l1
  induction l1 with
  | nil =>
      intro l2 h
      cases h
      exact List.Forall₂.nil
  | cons a t ih =>
      intro l2 h
      cases h with
      | cons hab hrest =>
          obtain ⟨se2, rfl⟩ := hab
          unfold nearbyAgentsOf
          rw [List.filter_cons, List.filter_cons]
          by_cases hc : a.id ≠ s.id ∧
              min |s.beatPhase - a.beatPhase| (2 * Real.pi - |s.beatPhase - a.beatPhase|)
                < Real.pi / 3
          · rw [if_pos (by simpa using hc), if_pos (by simpa using hc)]
            exact List.Forall₂.cons ⟨se2, rfl⟩ (ih hrest)
          · rw [if_neg (by simpa using hc), if_neg (by simpa using hc)]
            exact ih hrest

/-- Mutating the first agent with a given id preserves agreement when
the two mutators agree up to speaking energy. -/
theorem forall2_updateFirst (i : Nat) (f g : KuramotoAgent → KuramotoAgent)
    (hfg : ∀ x se, AgreeES (f x) (g { x with speakingEnergy := se })) :
    ∀ {l1 l2 : List KuramotoAgent}, List.Forall₂ AgreeES l1 l2 →
      List.Forall₂ AgreeES (updateFirstById l1 i f) (updateFirstById l2 i g) := by
  intro l1
  induction l1 with
  | nil =>
      intro l2 h
      cases h
      exact List.Forall₂.nil
  | cons a t ih =>
      intro l2 h
      cases h with
      | cons hab hrest =>
          obtain ⟨se, rfl⟩ := hab
          unfold updateFirstById
          by_cases hid : a.id = i
          · rw [if_pos hid, if_pos (show ({ a with speakingEnergy := se } :
                KuramotoAgent).id = i from hid)]
            exact List.Forall₂.cons (hfg a se) hrest
          · rw [if_neg hid, if_neg (show ¬ ({ a with speakingEnergy := se } :
                KuramotoAgent).id = i from hid)]
            exact List.Forall₂.cons ⟨se, rfl⟩ (ih hrest)

/-- Mapping agreement-preserving functions over agreeing populations
preserves agreement. -/
theorem forall2_map_agree (f g : KuramotoAgent → KuramotoAgent)
    (hfg : ∀ x se, AgreeES (f x) (g { x with speakingEnergy := se })) :
    ∀ {l1 l2 : List KuramotoAgent}, List.Forall₂ AgreeES l1 l2 →
      List.Forall₂ AgreeES (l1.map f) (l2.map g) := by
  intro l1
  induction l1 with
  | nil =>
      intro l2 h
      cases h
      exact List.Forall₂.nil
  | cons a t ih =>
      intro l2 h
      cases h with
      | cons hab hrest =>
          obtain ⟨se, rfl⟩ := hab
          exact List.Forall₂.cons (hfg a se) (ih hrest)

/-- The listener-trickle status lookup agrees on agreeing
populations. -/
theorem statusOfFirst_agree (i : Nat) {l1 l2 : List KuramotoAgent}
    (h : List.Forall₂ AgreeES l1 l2) : statusOfFirst l1 i = statusOfFirst l2 i := by
  unfold statusOfFirst
  rcases forall2_find_id i h with ⟨h1, h2⟩ | ⟨x, se, h1, h2⟩ <;> rw [h1, h2]

/-- The listener-trickle map preserves agreement. -/
theorem listener_map_agree (ids : List Nat) (lb t : ℝ)
    {l1 l2 : List KuramotoAgent} (h : List.Forall₂ AgreeES l1 l2) :
    List.Forall₂ AgreeES
      (l1.map (fun listener =>
        if listener.id ∈ ids ∧ listener.isForaging = false then
          { listener with
            speakingEnergy := min listener.maxSpeakingEnergy (listener.speakingEnergy + lb),
            lastSocialTime := t }
        else listener))
      (l2.map (fun listener =>
        if listener.id ∈ ids ∧ listener.isForaging = false then
          { listener with
            speakingEnergy := min listener.maxSpeakingEnergy (listener.speakingEnergy + lb),
            lastSocialTime := t }
        else listener)) := by
  refine forall2_map_agree _ _ ?_ h
  intro x se
  by_cases hc : x.id ∈ ids ∧ x.isForaging = false
  · rw [if_pos hc, if_pos (show ({ x with speakingEnergy := se } : KuramotoAgent).id ∈ ids ∧
        ({ x with speakingEnergy := se } : KuramotoAgent).isForaging = false from hc)]
    exact ⟨_, rfl⟩
  · rw [if_neg hc, if_neg (show ¬ (({ x with speakingEnergy := se } : KuramotoAgent).id ∈ ids ∧
        ({ x with speakingEnergy := se } : KuramotoAgent).isForaging = false) from hc)]
    exact ⟨se, rfl⟩

/-- The social-benefit pass ignores speaking energy: on agreeing
populations it grants the same bonuses and returns agreeing
populations. -/
theorem applySocial_agree (speakerId : Nat) (hist : List ConvEntry) (t : ℝ)
    {l1 l2 : List KuramotoAgent} (hl : List.Forall₂ AgreeES l1 l2) :
    List.Forall₂ AgreeES (applySocialBenefitsFromSpeaking l1 speakerId hist t)
      (applySocialBenefitsFromSpeaking l2 speakerId hist t) := by
  unfold applySocialBenefitsFromSpeaking
  rcases forall2_find_id speakerId hl with ⟨hn1, hn2⟩ | ⟨spk, se, hs1, hs2⟩
  · rw [hn1, hn2]
    exact hl
  rw [hs1, hs2]
  dsimp only
  have hnear := forall2_nearby spk se hl
  have hlen : (nearbyAgentsOf l2 { spk with speakingEnergy := se }).length
      = (nearbyAgentsOf l1 spk).length := hnear.length_eq.symm
  have hids : (nearbyAgentsOf l2 { spk with speakingEnergy := se }).map (fun a => a.id)
      = (nearbyAgentsOf l1 spk).map (fun a => a.id) := (forall2_map_id hnear).symm
  rw [hlen, hids]
  have h1 : List.Forall₂ AgreeES
      (if (nearbyAgentsOf l1 spk).length > 0 then
        updateFirstById l1 speakerId (fun s =>
          { s with speakingEnergy := min s.maxSpeakingEnergy (s.speakingEnergy +
              min 0.1 (((nearbyAgentsOf l1 spk).length : ℝ) * 0.02)) })
      else l1)
      (if (nearbyAgentsOf l1 spk).length > 0 then
        updateFirstById l2 speakerId (fun s =>
          { s with speakingEnergy := min s.maxSpeakingEnergy (s.speakingEnergy +
              min 0.1 (((nearbyAgentsOf l1 spk).length : ℝ) * 0.02)) })
      else l2) := by
    by_cases hpos : (nearbyAgentsOf l1 spk).length > 0
    · rw [if_pos hpos, if_pos hpos]
      refine forall2_updateFirst _ _ _ ?_ hl
      intro x se2
      exact ⟨_, rfl⟩
    · rw [if_neg hpos, if_neg hpos]
      exact hl
  have hfinish : ∀ {b1 b2 : List KuramotoAgent}, List.Forall₂ AgreeES b1 b2 →
      List.Forall₂ AgreeES
        (updateFirstById (b1.map (fun listener =>
          if listener.id ∈ (nearbyAgentsOf l1 spk).map (fun a => a.id) ∧
              listener.isForaging = false then
            { listener with
              speakingEnergy := min listener.maxSpeakingEnergy
                (listener.speakingEnergy + 0.02 * statusOfFirst b1 speakerId),
              lastSocialTime := t }
          else listener)) speakerId (fun s => { s with lastSocialTime := t }))
        (updateFirstById (b2.map (fun listener =>
          if listener.id ∈ (nearbyAgentsOf l1 spk).map (fun a => a.id) ∧
              listener.isForaging = false then
            { listener with
              speakingEnergy := min listener.maxSpeakingEnergy
                (listener.speakingEnergy + 0.02 * statusOfFirst b2 speakerId),
              lastSocialTime := t }
          else listener)) speakerId (fun s => { s with lastSocialTime := t })) := by
    intro b1 b2 hB
    rw [show statusOfFirst b2 speakerId = statusOfFirst b1 speakerId from
      (statusOfFirst_agree speakerId hB).symm]
    exact forall2_updateFirst _ _ _ (fun x se6 => ⟨se6, rfl⟩)
      (listener_map_agree _ _ t hB)
  rcases hresp : (hist.filter (fun e =>
      e.agentId ≠ speakerId ∧ t - e.time ≤ 3 ∧ 0.1 ≤ t - e.time)).getLast? with _ | resp
  · rw [hresp]
    exact hfinish h1
  · rw [hresp]
    dsimp only
    rcases forall2_find_id resp.agentId h1 with ⟨hm1, hm2⟩ | ⟨rx, se3, hr1, hr2⟩
    · rw [hm1, hm2]
      exact hfinish h1
    · rw [hr1, hr2]
      dsimp only
      refine hfinish ?_
      refine forall2_updateFirst _ _ _ ?_ h1
      intro x se4
      exact ⟨_, rfl⟩

/-- Loop states that agree: identical everywhere except that the two
agent populations may differ in speaking energy. -/
def GenAgree (g1 g2 : GenResult) : Prop :=
  g1.pf = g2.pf ∧ List.Forall₂ AgreeES g1.agents g2.agents ∧ g1.notes = g2.notes ∧
  g1.playing = g2.playing ∧ g1.noteInfo = g2.noteInfo ∧ g1.rng = g2.rng

/-- One iteration of the generateNotes loop preserves agreement: the
emission decision, the produced note and the random draws are identical
for agreeing states. -/
theorem genStep_agree (t : ℝ) {g1 g2 : GenResult} (h : GenAgree g1 g2) (k : Nat) :
    GenAgree (generateNotesStep t g1 k) (generateNotesStep t g2 k) := by
  obtain ⟨hpf, hag, hnotes, hplay, hinfo, hrng⟩ := h
  obtain ⟨se, hse⟩ := forall2_getD hag k
  have hlenA : g2.agents.length = g1.agents.length := hag.length_eq.symm
  simp only [generateNotesStep]
  rw [hse, hpf.symm, hrng.symm, hnotes.symm, hplay.symm, hinfo.symm, hlenA]
  dsimp only
  by_cases hcross : didCrossBeat (g1.agents.getD k defaultAgent).lastBeatPhase
      (g1.agents.getD k defaultAgent).beatPhase = true
  · rw [if_pos hcross, if_pos hcross]
    by_cases hemit : (shouldEmitNote g1.pf (g1.agents.getD k defaultAgent).id
        (g1.agents.getD k defaultAgent).energy g1.agents.length t g1.rng).1 = true
    · rw [if_pos hemit, if_pos hemit]
      obtain ⟨hnote, hagent, hrng2⟩ := createNote_agree g1.pf (g1.agents.getD k defaultAgent)
        se hag t (shouldEmitNote g1.pf (g1.agents.getD k defaultAgent).id
          (g1.agents.getD k defaultAgent).energy g1.agents.length t g1.rng).2
      rw [hnote, hrng2]
      exact ⟨rfl, applySocial_agree _ _ _ (forall2_set hagent hag k), rfl, rfl, rfl, rfl⟩
    · rw [if_neg hemit, if_neg hemit]
      exact ⟨rfl, hag, rfl, rfl, rfl, rfl⟩
  · rw [if_neg hcross, if_neg hcross]
    exact ⟨hpf, hag, hnotes, hplay, hinfo, hrng⟩

/-- The whole generateNotes loop preserves agreement. -/
theorem genFold_agree (t : ℝ) :
    ∀ (l : List Nat) {g1 g2 : GenResult}, GenAgree g1 g2 →
      GenAgree (l.foldl (generateNotesStep t) g1) (l.foldl (generateNotesStep t) g2) := by
  intro l
  induction l with
  | nil => intro g1 g2 h; exact h
  | cons k ks ih =>
      intro g1 g2 h
      rw [List.foldl_cons, List.foldl_cons]
      exact ih (genStep_agree t h k)

/-- C9: the scheduler's emission decisions never depend on speaking
energy. For two populations identical except for the agents' speaking
energies (zero included), under the same conversation state and the
same random draws, the tick grants exactly the same emissions: equal
note lists, equal speaking sets, equal conversation histories, and the
resulting populations still agree outside speaking energy. -/
theorem c9_theorem (pf0 : PitchFieldState) {ags1 ags2 : List KuramotoAgent}
    (h : List.Forall₂ AgreeES ags1 ags2) (currentTime lightLevel : ℝ)
    (playing0 : List Nat) (noteInfo0 : List (Nat × ℝ × ℝ)) (rng : Rng) :
    (generateNotes pf0 ags1 currentTime lightLevel playing0 noteInfo0 rng).notes
        = (generateNotes pf0 ags2 currentTime lightLevel playing0 noteInfo0 rng).notes ∧
    (generateNotes pf0 ags1 currentTime lightLevel playing0 noteInfo0 rng).playing
        = (generateNotes pf0 ags2 currentTime lightLevel playing0 noteInfo0 rng).playing ∧
    (generateNotes pf0 ags1 currentTime lightLevel playing0 noteInfo0 rng).pf
        = (generateNotes pf0 ags2 currentTime lightLevel playing0 noteInfo0 rng).pf ∧
    List.Forall₂ AgreeES
      (generateNotes pf0 ags1 currentTime lightLevel playing0 noteInfo0 rng).agents
      (generateNotes pf0 ags2 currentTime lightLevel playing0 noteInfo0 rng).agents := by
  have hlen : ags2.length = ags1.length := h.length_eq.symm
  unfold generateNotes
  rw [hlen]
  have hg := @genFold_agree currentTime (List.range ags1.length)
    { pf := cleanupOldConversation
        { pf0 with currentLightLevel := lightLevel } currentTime,
      agents := ags1, notes := [], playing := playing0,
      noteInfo := noteInfo0, rng := rng }
    { pf := cleanupOldConversation
        { pf0 with currentLightLevel := lightLevel } currentTime,
      agents := ags2, notes := [], playing := playing0,
      noteInfo := noteInfo0, rng := rng }
    ⟨rfl, h, rfl, rfl, rfl, rfl⟩
  exact ⟨hg.2.2.1, hg.2.2.2.1, hg.1, hg.2.1⟩

/-- Populations for the C9 witness: identical except speaking energy
(zero against full). -/
noncomputable def c9agA : KuramotoAgent := { defaultAgent with speakingEnergy := 0 }

/-- The full-energy counterpart of c9agA. -/
noncomputable def c9agB : KuramotoAgent := { defaultAgent with speakingEnergy := 1 }

/-- A pitch field for the C9 witness. -/
noncomputable def c9pf : PitchFieldState :=
  { currentLightLevel := 0.5, conversationHistory := [],
    lastConversationEnd := 0, conversationCooldown := 15 }

/-- A concrete random oracle for the C9 witness. -/
noncomputable def c9rng : Rng := ⟨fun _ => 1 / 2, 0⟩

/-- Witness for C9 at one-agent populations differing only in speaking
energy. -/
theorem c9_witness :
    List.Forall₂ AgreeES [c9agA] [c9agB] ∧
    (generateNotes c9pf [c9agA] 20 0.5 [] [] c9rng).notes
      = (generateNotes c9pf [c9agB] 20 0.5 [] [] c9rng).notes := by
  have hab : List.Forall₂ AgreeES [c9agA] [c9agB] :=
    List.Forall₂.cons ⟨1, rfl⟩ List.Forall₂.nil
  exact ⟨hab, (c9_theorem c9pf hab 20 0.5 [] [] c9rng).1⟩

/-- C3 as amended: consumeSpeakingEnergy, when invoked, debits the
given amount from the first agent with the given id (floored at zero)
and stamps its social time with the wall clock — but the emission path
of the tick never invokes it, so a granted emission leaves speaking
energy un-debited (it can even rise through social bonuses). -/
theorem c3_theorem (a : KuramotoAgent) (rest : List KuramotoAgent)
    (amount wallClockSeconds : ℝ) :
    consumeSpeakingEnergy (a :: rest) a.id amount wallClockSeconds
      = { a with speakingEnergy := max 0 (a.speakingEnergy - amount),
                 lastSocialTime := wallClockSeconds } :: rest := by
  unfold consumeSpeakingEnergy
  rw [if_pos rfl]

/-- Wrapping zero yields zero. -/
theorem wrapPhase_zero : wrapPhase 0 = 0 := by
  unfold wrapPhase jsMod jsTrunc
  rw [zero_div, if_pos (le_refl (0 : ℝ)), Int.floor_zero]
  norm_num

/-- Wrapping pi yields pi. -/
theorem wrapPhase_pi : wrapPhase Real.pi = Real.pi := by
  have hhalf : Real.pi / (2 * Real.pi) = 1 / 2 := by
    rw [eq_div_iff (by norm_num : (2 : ℝ) ≠ 0)]
    field_simp
    ring
  unfold wrapPhase jsMod jsTrunc
  rw [hhalf, if_pos (by norm_num : (0 : ℝ) ≤ 1 / 2)]
  have hfl : ⌊(1 : ℝ) / 2⌋ = 0 := by
    rw [Int.floor_eq_zero_iff]
    constructor <;> norm_num
  rw [hfl]
  have hpos : ¬ (Real.pi - 2 * Real.pi * ((0 : ℤ) : ℝ) < 0) := by
    push_neg
    push_cast
    nlinarith [Real.pi_pos]
  rw [if_neg hpos]
  push_cast
  ring

/-- A phase step from zero to pi crosses the beat position at zero. -/
theorem didCrossBeat_zero_pi : didCrossBeat 0 Real.pi = true := by
  unfold didCrossBeat crossedPhase
  rw [List.any_cons]
  rw [if_neg (by push_neg; exact Real.pi_pos.le)]
  rw [if_pos ⟨le_refl (0 : ℝ), Real.pi_pos⟩]
  rfl

/-- First agent of the C3 scenario: full speaking energy, beat
frequency tuned so one tick advances the beat phase from 0 exactly to
pi. -/
noncomputable def c3a0 : KuramotoAgent :=
  { id := 0, beatPhase := 0, phrasePhase := 0, beatOmega := 10, phraseOmega := 0,
    size := 1 / 2, energy := 1, lastBeatPhase := 0, speakingEnergy := 1,
    maxSpeakingEnergy := 1, speakingCost := 1 / 5, rechargeRate := 0,
    territoryPhase := 0, forageEfficiency := 1 / 2, lastForageTime := 0,
    isForaging := false, socialStatus := 1 / 2, statusDecayRate := 0,
    lastSocialTime := 0, recentNotes := [],
    degreeWeights := [1, 1, 1, 1, 1, 1, 1, 1, 1, 1, 1, 1] }

/-- Second agent of the C3 scenario, identical except for its id. -/
noncomputable def c3a1 : KuramotoAgent := { c3a0 with id := 1 }

/-- Pitch field of the C3 scenario. -/
noncomputable def c3pf : PitchFieldState :=
  { currentLightLevel := 1 / 2, conversationHistory := [],
    lastConversationEnd := 0, conversationCooldown := 15 }

/-- Simulator state of the C3 scenario. -/
noncomputable def c3sim : SimState :=
  { agents := [c3a0, c3a1], numAgents := 2, coupling := 0.15, pf := c3pf,
    playing := [], noteInfo := [] }

/-- The random stream of the C3 scenario: 0.01 for the first emission
draw (forcing a grant), 0.9 for the second agent's response draw
(forcing a denial), 0.5 everywhere else. -/
noncomputable def c3vals : Nat → ℝ :=
  fun n => if n = 0 then 1 / 100 else if n = 8 then 9 / 10 else 1 / 2

/-- The random oracle of the C3 scenario. -/
noncomputable def c3rng : Rng := ⟨c3vals, 0⟩

/-- Agent 0 after the phase update of the C3 tick. -/
noncomputable def c3a0p : KuramotoAgent := { c3a0 with beatPhase := Real.pi }

/-- Agent 1 after the phase update of the C3 tick. -/
noncomputable def c3a1p : KuramotoAgent := { c3a1 with beatPhase := Real.pi }

/-- The energy-management pass leaves the C3 agents unchanged: both are
at full speaking energy, with zero recharge and decay rates. -/
theorem c3_energy :
    List.map (updateEnergyAgent simDt 20) [c3a0, c3a1] = [c3a0, c3a1] := by
  have h : ∀ x : KuramotoAgent, x = c3a0 ∨ x = c3a1 →
      updateEnergyAgent simDt 20 x = x := by
    intro x hx
    unfold updateEnergyAgent attemptForaging
    rcases hx with rfl | rfl <;>
      · rw [if_pos (by norm_num [c3a0, c3a1, simDt])]
        dsimp only
        rw [if_pos (by norm_num [c3a0, c3a1])]
        norm_num [c3a0, c3a1, simDt]
  rw [List.map_cons, List.map_cons, List.map_nil,
    h c3a0 (Or.inl rfl), h c3a1 (Or.inr rfl)]

/-- The phase update of the C3 tick: all phases coincide, so coupling
vanishes and each beat phase advances from 0 exactly to pi. -/
theorem c3_phases :
    updatePhases 0.15 simDt 2 [c3a0, c3a1] = [c3a0p, c3a1p] := by
  have hrange : List.range ([c3a0, c3a1] : List KuramotoAgent).length = [0, 1] := by
    simp [List.range_succ]
  unfold updatePhases updatePhasesOrdered
  rw [hrange]
  rw [List.foldl_cons, List.foldl_cons, List.foldl_nil]
  simp only [phaseLoopStep, modifyAgent]
  unfold phaseStep
  norm_num [c3a0, c3a1, c3a0p, c3a1p, Real.sin_zero, simDt]
  constructor
  · rw [show (1 : ℝ) / 2 * (2 * Real.pi) = Real.pi by ring]
    exact wrapPhase_pi
  · exact wrapPhase_zero

/-- The history cleanup at the start of the C3 tick is a no-op. -/
theorem c3_cleanup :
    cleanupOldConversation { c3pf with currentLightLevel := 1 / 2 } 20 = c3pf := by
  unfold cleanupOldConversation c3pf
  simp

/-- Agent 0 is granted emission: no cooldown, conversation position 0,
and the 0.01 draw undercuts the 2 percent base probability. -/
theorem c3_emit0 :
    shouldEmitNote c3pf 0 1 2 20 (⟨c3vals, 0⟩ : Rng) = (true, ⟨c3vals, 1⟩) := by
  unfold shouldEmitNote getConversationState
  norm_num [c3pf, Rng.next, c3vals]

/-- Degree selection of the C3 note: no innovation (draw 0.5), uniform
weights, cumulative pick lands on index 5. -/
theorem c3_select :
    selectDegreeWithLearning c3a0p getChromaticScale (⟨c3vals, 1⟩ : Rng)
      = (5, ⟨c3vals, 3⟩) := by
  unfold selectDegreeWithLearning
  norm_num [cumulativePick, c3vals, Rng.next, c3a0p, c3a0, getChromaticScale,
    List.range_succ]

/-- Learning-updated agent and advanced stream of the C3 note
creation. -/
noncomputable def c3a0c : KuramotoAgent :=
  { c3a0p with recentNotes := [{ degree := 5, time := 20, agentId := 0 }],
               degreeWeights := [1, 1, 1, 1, 1, 1, 1, 1, 1, 1, 1, 1] }

/-- The note produced by agent 0 in the C3 tick. -/
noncomputable def c3note : NoteEvent :=
  (createNoteFromAgent c3pf c3a0p 20 [c3a0p, c3a1p] (⟨c3vals, 1⟩ : Rng)).1

/-- Note creation for agent 0: the learning update pushes the played
degree, finds no simultaneous neighbor notes, renormalizes the uniform
weights to themselves, and seven draws are consumed in total. -/
theorem c3_create :
    (createNoteFromAgent c3pf c3a0p 20 [c3a0p, c3a1p] (⟨c3vals, 1⟩ : Rng)).2
      = (c3a0c, (⟨c3vals, 8⟩ : Rng)) := by
  unfold createNoteFromAgent
  rw [c3_select]
  dsimp only
  norm_num [updateAgentLearning, getOctaveFromSize, Rng.next, c3vals, c3a0p, c3a1p,
    c3a0, c3a1, c3a0c, getChromaticScale, listModify, renormalizeWeights,
    List.filter_cons, decide_eq_true_eq, List.findIdx?]

/-- Agent 0 at the end of the C3 tick: social benefits stamp its
social time; its full speaking energy is untouched. -/
noncomputable def c3a0f : KuramotoAgent := { c3a0c with lastSocialTime := 20 }

/-- Agent 1 at the end of the C3 tick: a nearby listener, stamped and
capped at full energy. -/
noncomputable def c3a1f : KuramotoAgent := { c3a1p with lastSocialTime := 20 }

/-- The nearby-agent filter of the C3 tick: the two agents share the
beat phase pi, so agent 1 sits within 60 degrees of the speaker, while
the speaker itself is excluded. -/
theorem c3_nearby : nearbyAgentsOf [c3a0c, c3a1p] c3a0c = [c3a1p] := by
  unfold nearbyAgentsOf
  rw [List.filter_cons, List.filter_cons, List.filter_nil]
  rw [if_neg (by simp), if_pos ?hp]
  case hp =>
    simp only [decide_eq_true_eq]
    refine ⟨by simp [c3a1p, c3a1, c3a0, c3a0c, c3a0p], ?_⟩
    rw [show c3a0c.beatPhase = Real.pi from rfl, show c3a1p.beatPhase = Real.pi from rfl,
      sub_self, abs_zero]
    exact lt_of_le_of_lt (min_le_left _ _) (by positivity)

/-- The social-benefit pass of the C3 tick: agent 1 is within 60
degrees of the speaker, feeding and listener bonuses are absorbed by
the full-energy cap, and both social timestamps are set. -/
theorem c3_social :
    applySocialBenefitsFromSpeaking [c3a0c, c3a1p] 0 [{ time := 20, agentId := 0 }] 20
      = [c3a0f, c3a1f] := by
  have hfind : List.find? (fun a => decide (a.id = 0)) [c3a0c, c3a1p] = some c3a0c :=
    List.find?_cons_of_pos _ (by simp [show c3a0c.id = 0 from rfl])
  unfold applySocialBenefitsFromSpeaking
  rw [hfind]
  dsimp only
  rw [c3_nearby]
  norm_num [updateFirstById, statusOfFirst, c3a0c, c3a1p, c3a0p, c3a0, c3a1, c3a0f,
    c3a1f, List.filter_cons, List.find?_cons, decide_eq_true_eq, min_def]

/-- The pitch-field state after agent 0's emission is recorded. -/
noncomputable def c3pf2 : PitchFieldState :=
  { c3pf with conversationHistory := [{ time := 20, agentId := 0 }] }

/-- Agent 1's response attempt is denied: conversation position 1 puts
it inside the first response window as a ring neighbor of the speaker,
but the 0.9 draw exceeds the capped probability 0.375. -/
theorem c3_emit1 :
    shouldEmitNote c3pf2 1 1 2 20 (⟨c3vals, 8⟩ : Rng) = (false, ⟨c3vals, 9⟩) := by
  unfold shouldEmitNote getConversationState responseWindows
  norm_num [c3pf2, c3pf, Rng.next, c3vals, List.filter_cons, decide_eq_true_eq]

/-- The loop state after agent 0's iteration of the C3 tick. -/
noncomputable def c3g1 : GenResult :=
  { pf := c3pf2, agents := [c3a0f, c3a1f], notes := [c3note], playing := [0],
    noteInfo := [(0, c3note.startTime, c3note.dur)], rng := ⟨c3vals, 8⟩ }

/-- Iteration 0 of the C3 generateNotes loop: agent 0 crosses the
beat, is granted emission, produces the note, joins the history and
receives the social-benefit pass. -/
theorem c3_step0 :
    generateNotesStep 20
      { pf := c3pf, agents := [c3a0p, c3a1p], notes := [], playing := [],
        noteInfo := [], rng := (⟨c3vals, 0⟩ : Rng) } 0 = c3g1 := by
  simp only [generateNotesStep]
  rw [show ([c3a0p, c3a1p] : List KuramotoAgent).getD 0 defaultAgent = c3a0p from rfl]
  rw [show c3a0p.lastBeatPhase = 0 from rfl, show c3a0p.beatPhase = Real.pi from rfl,
    didCrossBeat_zero_pi, if_pos rfl]
  rw [show ([c3a0p, c3a1p] : List KuramotoAgent).length = 2 from rfl]
  rw [show c3a0p.id = 0 from rfl, show c3a0p.energy = 1 from rfl, c3_emit0]
  dsimp only
  rw [if_pos rfl]
  rw [c3_create]
  dsimp only
  rw [show ([c3a0p, c3a1p] : List KuramotoAgent).set 0 c3a0c = [c3a0c, c3a1p] from rfl]
  rw [show c3pf.conversationHistory = ([] : List ConvEntry) from rfl, List.nil_append]
  rw [c3_social]
  rfl

/-- Iteration 1 of the C3 generateNotes loop: agent 1 crosses the beat
but its response draw 0.9 is denied, so only its random cursor
advances. -/
theorem c3_step1 :
    generateNotesStep 20 c3g1 1 = { c3g1 with rng := (⟨c3vals, 9⟩ : Rng) } := by
  simp only [generateNotesStep]
  rw [show c3g1.agents.getD 1 defaultAgent = c3a1f from rfl]
  rw [show c3a1f.lastBeatPhase = 0 from rfl, show c3a1f.beatPhase = Real.pi from rfl,
    didCrossBeat_zero_pi, if_pos rfl]
  rw [show c3g1.agents.length = 2 from rfl]
  rw [show c3a1f.id = 1 from rfl, show c3a1f.energy = 1 from rfl]
  rw [show c3g1.pf = c3pf2 from rfl, show c3g1.rng = (⟨c3vals, 8⟩ : Rng) from rfl]
  rw [c3_emit1]
  rw [if_neg (by simp)]

/-- The complete C3 tick: one note is emitted, agent 0 keeps its full
speaking energy, and both agents carry the social timestamp. -/
theorem c3_tick :
    (tick c3sim 20 (1 / 2) c3rng).1.agents = [c3a0f, c3a1f] ∧
    (tick c3sim 20 (1 / 2) c3rng).1.playing = [0] ∧
    (tick c3sim 20 (1 / 2) c3rng).2.1 = [c3note] := by
  have hgen : generateNotes c3pf [c3a0p, c3a1p] 20 (1 / 2) [] [] c3rng
      = { c3g1 with rng := (⟨c3vals, 9⟩ : Rng) } := by
    unfold generateNotes
    rw [show c3rng = (⟨c3vals, 0⟩ : Rng) from rfl]
    rw [c3_cleanup]
    rw [show List.range ([c3a0p, c3a1p] : List KuramotoAgent).length = [0, 1] from by
      simp [List.range_succ]]
    rw [List.foldl_cons, c3_step0, List.foldl_cons, c3_step1, List.foldl_nil]
  simp only [tick]
  rw [show c3sim.agents = [c3a0, c3a1] from rfl]
  rw [c3_energy]
  rw [show c3sim.coupling = (0.15 : ℝ) from rfl, show c3sim.numAgents = 2 from rfl]
  rw [c3_phases]
  rw [show c3sim.noteInfo = ([] : List (Nat × ℝ × ℝ)) from rfl]
  simp only [List.filter_nil]
  rw [show c3sim.pf = c3pf from rfl]
  rw [hgen]
  exact ⟨rfl, rfl, rfl⟩

/-- C3 counterexample: in the concrete C3 tick agent 0 is granted
emission (one note is produced and agent 0 enters the speaking set),
its speaking cost is 0.2, yet its speaking energy after the tick is
still 1 — not the claimed max(0, 1 - 0.2) = 0.8. The debit never
happens because consumeSpeakingEnergy is never invoked by the tick. -/
theorem c3_counterexample :
    ((tick c3sim 20 (1 / 2) c3rng).1.agents.getD 0 defaultAgent).speakingEnergy = 1 ∧
    (tick c3sim 20 (1 / 2) c3rng).1.playing = [0] ∧
    (tick c3sim 20 (1 / 2) c3rng).2.1.length = 1 ∧
    c3a0.speakingCost = 1 / 5 ∧
    ((1 : ℝ) ≠ max 0 (1 - 1 / 5)) := by
  obtain ⟨ha, hp, hn⟩ := c3_tick
  refine ⟨?_, hp, ?_, rfl, ?_⟩
  · rw [ha]
    rfl
  · rw [hn]
    rfl
  · rw [max_eq_right (by norm_num : (0 : ℝ) ≤ 1 - 1 / 5)]
    norm_num

/-- The initial coupling of the KuramotoSimulator constructor together
with an otherwise empty simulator state. -/
noncomputable def c7InitState : SimState :=
  { agents := [], numAgents := numAgentsConst, coupling := 0.15,
    pf := { currentLightLevel := 0.5, conversationHistory := [],
            lastConversationEnd := 0, conversationCooldown := 15 },
    playing := [], noteInfo := [] }

/-- The parameter name sent by the control panel for the coupling
strength. -/
def couplingParamName : String := "couplingStrength"

/-- C7 counterexample: a setParameter request for coupling 0.3 leaves
the coupling at its initial 0.15 (the handler is a stub), so the
coupling does not reflect the request; and the internal setCoupling
method accepts 0.8, which lies outside [0, 0.5]. -/
theorem c7_counterexample :
    (handleParameterChange c7InitState couplingParamName 0.3).coupling = 0.15 ∧
    (0.15 : ℝ) ≠ 0.3 ∧
    (setCoupling c7InitState 0.8).coupling = 0.8 ∧
    ¬ (setCoupling c7InitState 0.8).coupling ≤ 0.5 := by
  have hset : (setCoupling c7InitState 0.8).coupling = 0.8 := by
    simp only [setCoupling]
    rw [min_eq_right (by norm_num : (0.8 : ℝ) ≤ 1), max_eq_right (by norm_num : (0 : ℝ) ≤ 0.8)]
  refine ⟨rfl, by norm_num, hset, ?_⟩
  rw [hset]
  norm_num

/-- C7 as amended: the setParameter message handler is a stub that
changes no simulation state at all (so the coupling used by later phase
updates stays at its current value for every requested parameter), and
the internal setCoupling method clamps a requested value into [0, 1],
not [0, 0.5]. -/
theorem c7_amended_theorem (s : SimState) (v : ℝ) (name : String) (value : ℝ) :
    handleParameterChange s name value = s ∧
    (handleParameterChange s name value).coupling = s.coupling ∧
    0 ≤ (setCoupling s v).coupling ∧ (setCoupling s v).coupling ≤ 1 := by
  refine ⟨rfl, rfl, le_max_left _ _, ?_⟩
  exact max_le (by norm_num) (min_le_left _ _)

/-- An agent whose learned degree weights differ from the uniform
weights that initAgents would assign. -/
noncomputable def c8Agent : KuramotoAgent :=
  { defaultAgent with degreeWeights := List.replicate 12 5 }

/-- A running environment-simulator state carrying the learned agent. -/
noncomputable def c8State : EnvSimState :=
  { isRunning := true, envTicking := true, phaseTicking := true, time := 42,
    audioStartTime := 1,
    sim := { agents := [c8Agent], numAgents := numAgentsConst, coupling := 0.15,
             pf := { currentLightLevel := 0.5, conversationHistory := [],
                     lastConversationEnd := 0, conversationCooldown := 15 },
             playing := [], noteInfo := [] } }

/-- A concrete random oracle. -/
noncomputable def c8Rng : Rng := ⟨fun _ => 1 / 2, 0⟩

/-- C8 counterexample: after stop followed by start, the agent still
carries its learned degree-weight vector of fives, while a fresh
initAgents population always starts with uniform weight one —
so the restart carried over state instead of reinitializing. -/
theorem c8_counterexample :
    ((envStart (envStop c8State) 0).sim.agents.map (fun a => a.degreeWeights))
        = [List.replicate 12 (5 : ℝ)] ∧
    (initAgents c8Rng).map (fun a => a.degreeWeights)
        = List.replicate 16 (List.replicate 12 (1 : ℝ)) ∧
    List.replicate 12 (5 : ℝ) ≠ List.replicate 12 (1 : ℝ) := by
  refine ⟨?_, ?_, ?_⟩
  · simp [envStart, envStop, c8State, c8Agent, defaultAgent, List.replicate]
  · have hr : List.range numAgentsConst
        = [0, 1, 2, 3, 4, 5, 6, 7, 8, 9, 10, 11, 12, 13, 14, 15] := by decide
    simp [initAgents, hr, initAgent, List.replicate]
  · simp [List.replicate]

/-- C8 as amended: a stop followed by a start leaves the entire
KuramotoSimulator state (agents, learned weights, conversation state)
untouched: the agent population is created once in the class
constructor and start only resets the environment clock and restarts
the tick intervals. -/
theorem c8_amended_theorem (s : EnvSimState) (perfNowMs : ℝ) :
    (envStart (envStop s) perfNowMs).sim = s.sim := by
  cases hb : s.isRunning <;> simp [envStart, envStop, hb]

end Creatures
